import Mathlib

/-!
# Real-time connection manager of the social-network client

A shallow embedding of the two WebSocket composables of the front end,
`frontend/src/composables/useWebSocket.js` (chat) and
`frontend/src/composables/useNotifications.js` (notifications).

The module-level refs (`ws`, `connected`, `connecting`, `reconnectAttempts`,
`notifications`, `unreadCount`, `eventListeners`), the two closure variables of
one composable instance (`heartbeatTimer`, `reconnectTimer`) and the auth store
(`user`, `token`) are fields of `State`.  The browser is part of the state as
well: the sockets built by `new WebSocket`, the timers armed by `setTimeout` and
`setInterval`, and the calls the manager made on them.

Every JavaScript function becomes a state transformer with the name it has in
the source.  The handlers `onopen`, `onerror` and `onclose` are the closures the
source attaches to each socket; like the source they read and write the shared
`ws` ref, never the socket they are attached to.  Subscriber callbacks are
identified by numbers.  `emit` is the dispatch to callbacks that leave the
composable alone: it records which callback was invoked with which payload.  In
every handler `emit` comes after the last write to the connection state, so a
callback that calls `connect()` or `disconnect()` acts like the same call made as
the next turn, which `run` covers.  `emitLoop` is the same function statement by
statement, for callbacks that may throw and may call back into the composable,
`on` and `off` included.

Timer ids handed out by the browser are positive, hence truthy: a handle is
`some id` or `none`.  Close codes, delays and counters are natural numbers.
-/

namespace SocialNetwork

/-- The two composables share their connection logic and differ in the heartbeat
and in what `disconnect` and `onopen` do besides. -/
inductive Variant where
  | chat
  | notifications
  deriving DecidableEq, Repr

/-- The `readyState` of a browser WebSocket. -/
inductive ReadyState where
  | CONNECTING
  | OPEN
  | CLOSING
  | CLOSED
  deriving DecidableEq, Repr

/-- The user object of the auth store, as far as the composables read it. -/
structure User where
  id : Nat
  username : String
  deriving DecidableEq, Repr

/-- A socket built by `new WebSocket(wsUrl)`.  `userId` is `user.id` of the
`user` constant that the handlers of this socket close over. -/
structure Socket where
  readyState : ReadyState
  userId : Nat
  deriving DecidableEq, Repr

/-- A record of the `notifications` ref, with the fields the composable reads. -/
structure Notification where
  id : Nat
  is_read : Bool
  type : String
  content : String
  deriving DecidableEq, Repr

/-- A parsed inbound frame of the chat socket: the `type` discriminator (absent
when the frame has none), the two fields `handleOnlineStatus` reads, the `error`
field, and the rest of the frame as uninterpreted text. -/
structure Frame where
  type : Option String
  user_id : Nat
  is_online : Bool
  error : String
  body : String
  deriving DecidableEq, Repr

/-- A parsed inbound frame of the notifications socket. -/
structure NotificationFrame where
  type : Option String
  notification : Notification
  deriving DecidableEq, Repr

/-- Payloads passed to `emit`. -/
inductive Payload where
  | connected (userId : Nat)
  | disconnected (code : Nat) (reason : String)
  | frame (data : Frame)
  | notification (n : Notification)
  | id (notificationId : Nat)
  | undefined
  deriving DecidableEq, Repr

/-- Frames written by `ws.value.send`. -/
inductive OutFrame where
  | ping
  | message (receiver_id : Nat) (content : String) (image_path : Option String)
      (timestamp : String)
  | group_message (group_id : Nat) (content : String) (timestamp : String)
  deriving DecidableEq, Repr

/-- REST requests issued by the notifications composable. -/
inductive RestCall where
  | list (limit offset : Nat)
  | unreadCount
  | markRead (notificationId : Nat)
  | markAllRead
  | delete (notificationId : Nat)
  deriving DecidableEq, Repr

/-- Calls on the browser `Notification` interface made by
`showBrowserNotification`. -/
inductive DesktopCall where
  | show (n : Notification)
  | requestPermission (n : Notification)
  deriving DecidableEq, Repr

/-- The value of `Notification.permission`, or the absence of the interface. -/
inductive DesktopPermission where
  | unsupported
  | granted
  | denied
  | default
  deriving DecidableEq, Repr

/-- The `config` object of both composables (the URLs are not modelled). -/
structure Config where
  reconnectDelay : Nat
  maxReconnectAttempts : Nat
  heartbeatInterval : Nat
  deriving DecidableEq, Repr

/-- The values of `config` in the source. -/
def config : Config :=
  { reconnectDelay := 3000, maxReconnectAttempts := 5, heartbeatInterval := 30000 }

/-- The state of one composable instance together with the browser objects it
created. -/
structure State where
  /-- The ref `ws.value`: index into `sockets` of the referenced socket, or `null`. -/
  ws : Option Nat
  connected : Bool
  connecting : Bool
  reconnectAttempts : Nat
  notifications : List Notification
  unreadCount : Int
  /-- The ref `eventListeners.value`: event name to callbacks, in registration order. -/
  eventListeners : List (String × List Nat)
  /-- The closure variable `heartbeatTimer`: an interval id or `null`. -/
  heartbeatTimer : Option Nat
  /-- The closure variable `reconnectTimer`: a timeout id or `null`. -/
  reconnectTimer : Option Nat
  /-- The ref `user.value` of the auth store. -/
  user : Option User
  /-- The ref `token.value` of the auth store. -/
  token : Option String
  /-- Every socket constructed so far, in construction order. -/
  sockets : List Socket
  /-- Pending `setTimeout` timers: id and delay in milliseconds. -/
  timeouts : List (Nat × Nat)
  /-- Active `setInterval` timers. -/
  intervals : List Nat
  /-- Next timer id handed out by the browser. -/
  nextTimer : Nat
  /-- Calls `socket.close(code, reason)` made so far: socket, code, reason. -/
  closeCalls : List (Nat × Nat × String)
  /-- Frames handed to `socket.send` without an exception. -/
  sent : List (Nat × OutFrame)
  /-- Callback invocations made by `emit`: callback and payload. -/
  invoked : List (Nat × Payload)
  /-- REST requests started. -/
  requests : List RestCall
  /-- The global `window._chatWebSocket` written by the chat composable. -/
  chatWebSocket : Option Nat
  /-- The ref `onlineUsers.value`: the elements of the set, in insertion order. -/
  onlineUsers : List Nat
  /-- Calls made on the browser `Notification` interface. -/
  desktop : List DesktopCall
  /-- The entries of the browser `localStorage`, key and value. -/
  localStorage : List (String × String)
  deriving DecidableEq, Repr

/-- Module load: every ref has its initial value, nothing exists in the browser. -/
def init : State :=
  { ws := none, connected := false, connecting := false, reconnectAttempts := 0,
    notifications := [], unreadCount := 0, eventListeners := [],
    heartbeatTimer := none, reconnectTimer := none, user := none, token := none,
    sockets := [], timeouts := [], intervals := [], nextTimer := 1,
    closeCalls := [], sent := [], invoked := [], requests := [], chatWebSocket := none,
    onlineUsers := [], desktop := [], localStorage := [] }

/-- JavaScript truthiness of the token: neither `null` nor the empty string. -/
def tokenPresent (t : Option String) : Bool :=
  match t with
  | some x => x != ""
  | none => false

/-- Source: `emit(event, data)`, for callbacks that leave the composable alone
(`emitLoop` is the general form and agrees with this one on such callbacks).
Without an entry for the event nothing happens; otherwise every callback of the
list is called in order, each in its own `try`/`catch`. -/
def emit (event : String) (data : Payload) (s : State) : State :=
  match s.eventListeners.lookup event with
  | none => s
  | some listeners => { s with invoked := s.invoked ++ listeners.map (fun cb => (cb, data)) }

/-- Source: `stopHeartbeat()`. -/
def stopHeartbeat (s : State) : State :=
  match s.heartbeatTimer with
  | some h => { s with intervals := s.intervals.filter (fun i => i != h), heartbeatTimer := none }
  | none => s

/-- Source: `startHeartbeat()`.  The chat composable arms an interval after
clearing the old one; the notifications composable only clears. -/
def startHeartbeat (v : Variant) (s : State) : State :=
  let s1 := stopHeartbeat s
  match v with
  | .chat =>
    { s1 with heartbeatTimer := some s1.nextTimer, intervals := s1.intervals ++ [s1.nextTimer],
              nextTimer := s1.nextTimer + 1 }
  | .notifications => s1

/-- Source: `clearNotifications()`. -/
def clearNotifications (s : State) : State :=
  { s with notifications := [], unreadCount := 0 }

/-- Source: `connect()`.  `ctorThrows` says whether the body of the `try` block
(building the URL and `new WebSocket(wsUrl)`) throws before `ws.value` is
assigned; the `catch` then resets `connecting`. -/
def connect (ctorThrows : Bool) (s : State) : State :=
  if s.ws.isSome || s.connecting then s
  else
    match s.user with
    | none => s
    | some user =>
      if !tokenPresent s.token then s
      else
        let s1 := { s with connecting := true }
        if ctorThrows then { s1 with connecting := false }
        else
          { s1 with ws := some s1.sockets.length,
                    sockets := s1.sockets ++ [{ readyState := .CONNECTING, userId := user.id }] }

/-- Source: `scheduleReconnect()`. -/
def scheduleReconnect (s : State) : State :=
  let s1 := { s with reconnectAttempts := s.reconnectAttempts + 1 }
  let delay := config.reconnectDelay * s1.reconnectAttempts
  { s1 with reconnectTimer := some s1.nextTimer, timeouts := s1.timeouts ++ [(s1.nextTimer, delay)],
            nextTimer := s1.nextTimer + 1 }

/-- Browser side of `socket.close()`: a socket that is connecting or open starts
closing; on a closing or closed socket the call does nothing. -/
def closeSocket (i : Nat) (sockets : List Socket) : List Socket :=
  match sockets[i]? with
  | some sk =>
    match sk.readyState with
    | .CONNECTING => sockets.set i { sk with readyState := .CLOSING }
    | .OPEN => sockets.set i { sk with readyState := .CLOSING }
    | _ => sockets
  | none => sockets

/-- Source: `disconnect()`. -/
def disconnect (v : Variant) (s : State) : State :=
  let s0 :=
    match v with
    | .chat => { s with chatWebSocket := none }
    | .notifications => s
  let s1 := stopHeartbeat s0
  let s2 :=
    match s1.reconnectTimer with
    | some t => { s1 with timeouts := s1.timeouts.filter (fun p => p.1 != t), reconnectTimer := none }
    | none => s1
  let s3 :=
    match s2.ws with
    | some i =>
      { s2 with closeCalls := s2.closeCalls ++ [(i, 1000, "Client disconnect")],
                sockets := closeSocket i s2.sockets, ws := none }
    | none => s2
  let s4 := { s3 with connected := false, connecting := false, reconnectAttempts := 0 }
  match v with
  | .chat => s4
  | .notifications => clearNotifications s4

/-- Source: `loadNotifications()` up to the `fetch`: without a token nothing is
requested. -/
def loadNotifications (limit offset : Nat) (s : State) : State :=
  if !tokenPresent s.token then s
  else { s with requests := s.requests ++ [.list limit offset] }

/-- Source: the later (effective) declaration of `requestUnreadCount()`, up to
the `fetch`. -/
def requestUnreadCount (s : State) : State :=
  if !tokenPresent s.token then s
  else { s with requests := s.requests ++ [.unreadCount] }

/-- Source: the `onopen` handler installed by `connect()`; `userId` is `user.id`
of the closure. -/
def onopen (v : Variant) (userId : Nat) (s : State) : State :=
  let s0 := { s with connected := true, connecting := false, reconnectAttempts := 0 }
  let s1 :=
    match v with
    | .chat => { s0 with chatWebSocket := s0.ws }
    | .notifications => s0
  let s2 := startHeartbeat v s1
  let s3 := emit "connected" (.connected userId) s2
  match v with
  | .chat => s3
  | .notifications => requestUnreadCount (loadNotifications 20 0 s3)

/-- Source: the `onerror` handler installed by `connect()`. -/
def onerror (s : State) : State :=
  { s with connecting := false }

/-- Source: the `onclose` handler installed by `connect()`, for a close event
with `event.code = code` and `event.reason = reason`. -/
def onclose (v : Variant) (code : Nat) (reason : String) (s : State) : State :=
  let s0 := { s with connected := false, connecting := false, ws := none }
  let s1 :=
    match v with
    | .chat => { s0 with chatWebSocket := none }
    | .notifications => s0
  let s2 := stopHeartbeat s1
  let s3 :=
    if code != 1000 && decide (s2.reconnectAttempts < config.maxReconnectAttempts) then
      scheduleReconnect s2
    else s2
  emit "disconnected" (.disconnected code reason) s3

/-- Source: the interval callback of the chat `startHeartbeat()`.  `sendThrows`
says whether `ws.value.send` throws. -/
def heartbeatTick (sendThrows ctorThrows : Bool) (s : State) : State :=
  match s.ws with
  | some i =>
    if s.connected then
      if sendThrows then connect ctorThrows (disconnect .chat s)
      else { s with sent := s.sent ++ [(i, .ping)] }
    else s
  | none => s

/-- Source: the callback passed to `setTimeout` by `scheduleReconnect()`. -/
def reconnectTimerCallback (ctorThrows : Bool) (s : State) : State :=
  connect ctorThrows s

/-- What can happen to the manager: calls of its public API, timers of the
browser, events of a socket, and a change of the auth store. -/
inductive Ev where
  | connect (ctorThrows : Bool)
  | disconnect
  | timerFire (timer : Nat) (ctorThrows : Bool)
  | heartbeat (sendThrows ctorThrows : Bool)
  | sockOpen (sock : Nat)
  | sockError (sock : Nat)
  | sockClose (sock code : Nat) (reason : String)
  | session (user : Option User) (token : Option String)
  deriving DecidableEq, Repr

/-- One turn of the event loop.  The result is `none` when the browser cannot
deliver the event: a timeout fires only while pending, the heartbeat ticks only
while its interval is armed, a socket delivers `open` only while connecting and
before `close()` was called on it, and delivers nothing after its close event. -/
def step (v : Variant) (e : Ev) (s : State) : Option State :=
  match e with
  | .connect ctorThrows => some (connect ctorThrows s)
  | .disconnect => some (disconnect v s)
  | .timerFire t ctorThrows =>
    if s.timeouts.any (fun p => p.1 == t) then
      some (reconnectTimerCallback ctorThrows
        { s with timeouts := s.timeouts.filter (fun p => p.1 != t) })
    else none
  | .heartbeat sendThrows ctorThrows =>
    match v, s.heartbeatTimer with
    | .chat, some h =>
      if s.intervals.contains h then some (heartbeatTick sendThrows ctorThrows s) else none
    | _, _ => none
  | .sockOpen i =>
    match s.sockets[i]? with
    | some sk =>
      if sk.readyState = .CONNECTING then
        some (onopen v sk.userId { s with sockets := s.sockets.set i { sk with readyState := .OPEN } })
      else none
    | none => none
  | .sockError i =>
    match s.sockets[i]? with
    | some sk => if sk.readyState = .CLOSED then none else some (onerror s)
    | none => none
  | .sockClose i code reason =>
    match s.sockets[i]? with
    | some sk =>
      if sk.readyState = .CLOSED then none
      else
        some (onclose v code reason
          { s with sockets := s.sockets.set i { sk with readyState := .CLOSED } })
    | none => none
  | .session user token => some { s with user := user, token := token }

/-- Run a sequence of turns; `none` as soon as one event cannot be delivered. -/
def run (v : Variant) : List Ev → State → Option State
  | [], s => some s
  | e :: es, s =>
    match step v e s with
    | some s1 => run v es s1
    | none => none

/-- A state is reachable when some deliverable sequence of turns leads to it
from module load. -/
def Reachable (v : Variant) (s : State) : Prop :=
  ∃ es : List Ev, run v es init = some s

/-- Sockets that have not delivered their close event. -/
def undelivered (s : State) : Nat :=
  (s.sockets.filter (fun sk => sk.readyState != .CLOSED)).length

/-- Sockets that are connecting or open and on which `close()` was never called. -/
def live (s : State) : Nat :=
  (s.sockets.filter (fun sk => sk.readyState == .CONNECTING || sk.readyState == .OPEN)).length

/-- Sockets whose `readyState` is `OPEN`. -/
def openSockets (s : State) : Nat :=
  (s.sockets.filter (fun sk => sk.readyState == .OPEN)).length

/-- The scenario of the attempt cap: for each close code of the list the socket
that `ws` refers to delivers a close event, then the first pending reconnect
timer (if the close scheduled one) fires without a constructor failure.  The
result lists, per close event, how many timers that event scheduled, and the
state at the end. -/
def capRun (v : Variant) : List (Nat × String) → State → Option (List Nat × State)
  | [], s => some ([], s)
  | (code, reason) :: rest, s =>
    match s.ws with
    | none => none
    | some i =>
      match step v (.sockClose i code reason) s with
      | none => none
      | some s1 =>
        let fired :=
          match s1.timeouts with
          | [] => some s1
          | (t, _) :: _ => step v (.timerFire t false) s1
        match fired with
        | none => none
        | some s2 =>
          match capRun v rest s2 with
          | none => none
          | some (counts, sf) => some ((s1.timeouts.length - s.timeouts.length) :: counts, sf)

/-- The start of a cycle of `capRun`: `ws` refers to a socket that has not
delivered its close event, the counter is `n`, no timer is pending and a session
is present. -/
def CapReady (n : Nat) (s : State) : Prop :=
  ∃ i sk, s.ws = some i ∧ s.sockets[i]? = some sk ∧ sk.readyState ≠ .CLOSED ∧
    s.reconnectAttempts = n ∧ s.timeouts = [] ∧ s.user ≠ none ∧ tokenPresent s.token = true

/-- Module load followed by a login of user 7. -/
def loggedIn : State :=
  { init with user := some { id := 7, username := "ann" }, token := some "tok" }

/-- The state `loggedIn` after a successful `connect()`. -/
def firstAttempt : State :=
  { loggedIn with ws := some 0, connecting := true,
                  sockets := [{ readyState := .CONNECTING, userId := 7 }] }

/-- The login of user 7 as an event. -/
def login : Ev :=
  .session (some { id := 7, username := "ann" }) (some "tok")

/-- A logout-and-login race: socket 0 is open, `disconnect()` starts closing it,
`connect()` builds socket 1, then the close event of socket 0 arrives and its
handler clears `ws`, so the next `connect()` builds socket 2; both open. -/
def staleCloseTrace : List Ev :=
  [login, .connect false, .sockOpen 0, .disconnect, .connect false, .sockClose 0 1000 "",
   .connect false, .sockOpen 1, .sockOpen 2]

/-- Socket 0 fails, a reconnect timer is armed; before it fires `connect()` is
called by hand and builds socket 1, which fails as well. -/
def leakedTimerTrace : List Ev :=
  [login, .connect false, .sockClose 0 1006 "", .connect false, .sockClose 1 1006 ""]

/-- Socket 0 fails, a reconnect timer is armed; before it fires `connect()` is
called by hand and socket 1 opens. -/
def openWhilePendingTrace : List Ev :=
  [login, .connect false, .sockClose 0 1006 "", .connect false, .sockOpen 1]

/-- As `staleCloseTrace` up to the late close event of socket 0; then socket 1
opens while `ws` is `null`, and `connect()` is called again. -/
def bothFlagsTrace : List Ev :=
  [login, .connect false, .sockOpen 0, .disconnect, .connect false, .sockClose 0 1000 "",
   .sockOpen 1, .connect false]

/-! ## Event dispatcher, inbound frames and notification records

Callbacks are identified by numbers; two registrations are the same callback
exactly when the numbers are equal (`indexOf` compares by identity).  What the
call `callback(data)` does is given by a `behaviour`: a transformer of the state,
which may use every function of the composable (`off` and `on` among them),
together with a flag that says whether the call threw.  Statements that may throw
return the state together with a flag that tells whether an exception left the
statement.

Inbound frames have the shape the back end sends; the desktop notification that
`showBrowserNotification` raises is recorded in `desktop`. -/

/-- The array stored under `event`, empty when the map has no entry. -/
def listenersOf (s : State) (event : String) : List Nat :=
  (s.eventListeners.lookup event).getD []

/-- In-place update of the array that `eventListeners.value.get(event)` returns. -/
def modifyListeners (event : String) (f : List Nat → List Nat) :
    List (String × List Nat) → List (String × List Nat)
  | [] => []
  | (k, l) :: rest =>
    if event == k then (k, f l) :: rest else (k, l) :: modifyListeners event f rest

/-- Source: `on(event, callback)`; the word `on` is reserved in Lean. -/
def onEvent (event : String) (callback : Nat) (s : State) : State :=
  let s1 :=
    if (s.eventListeners.lookup event).isSome then s
    else { s with eventListeners := s.eventListeners ++ [(event, [])] }
  { s1 with eventListeners := modifyListeners event (fun l => l ++ [callback]) s1.eventListeners }

/-- JavaScript `listeners.indexOf(callback)`: the first index, or `-1`. -/
def indexOf (listeners : List Nat) (callback : Nat) : Int :=
  if callback ∈ listeners then (List.indexOf callback listeners : Nat) else -1

/-- Source: `off(event, callback)`; `splice(index, 1)` removes the element at
`index`. -/
def off (event : String) (callback : Nat) (s : State) : State :=
  match s.eventListeners.lookup event with
  | none => s
  | some listeners =>
    let index := indexOf listeners callback
    if index > -1 then
      { s with eventListeners :=
          modifyListeners event (fun l => l.eraseIdx index.toNat) s.eventListeners }
    else s

/-- The call `callback(data)`: the invocation is recorded, then the body of the
callback runs; the flag says whether it threw. -/
def callCallback (behaviour : Nat → Payload → State → State × Bool) (callback : Nat)
    (data : Payload) (s : State) : State × Bool :=
  behaviour callback data { s with invoked := s.invoked ++ [(callback, data)] }

/-- A callback that leaves the composable alone and throws when `throws` says so. -/
def inert (throws : Nat → Payload → Bool) (callback : Nat) (data : Payload) (s : State) :
    State × Bool :=
  (s, throws callback data)

/-- The statement `try { body } catch (error) { console.error(...) }`: whatever
the body did stays done, and no exception leaves the statement. -/
def tryCatch (body : State → State × Bool) (s : State) : State × Bool :=
  match body s with
  | (s1, _) => (s1, false)

/-- JavaScript `listeners.forEach(body)` on the array stored under `event`.  The
length is read once, before the first call (`remaining` indices are still to be
visited, `k` is the next one).  At each index the element that is in the array
at that moment is visited; an index past the current end is skipped.  The array
is the live one: `on` and `off` called by the body push to it and splice it.  An
exception thrown by the body leaves the loop. -/
def forEach (event : String) (body : Nat → State → State × Bool) :
    Nat → Nat → State → State × Bool
  | 0, _, s => (s, false)
  | remaining + 1, k, s =>
    match (listenersOf s event)[k]? with
    | none => forEach event body remaining (k + 1) s
    | some x =>
      match body x s with
      | (s1, true) => (s1, true)
      | (s1, false) => forEach event body remaining (k + 1) s1

/-- Source: `emit(event, data)`, statement by statement. -/
def emitLoop (behaviour : Nat → Payload → State → State × Bool) (event : String)
    (data : Payload) (s : State) : State × Bool :=
  match s.eventListeners.lookup event with
  | none => (s, false)
  | some listeners =>
    forEach event (fun callback => tryCatch (callCallback behaviour callback data))
      listeners.length 0 s

/-- Three subscribers of the event `x`, registered in the order 1, 2, 3. -/
def threeSubscribers : State :=
  onEvent "x" 3 (onEvent "x" 2 (onEvent "x" 1 init))

/-- Callback 1 unsubscribes itself when it is called (a one-shot listener); the
other callbacks leave the composable alone.  No callback throws. -/
def selfRemoving (callback : Nat) (_data : Payload) (s : State) : State × Bool :=
  if callback = 1 then (off "x" 1 s, false) else (s, false)

/-- Source: `handleOnlineStatus(data)`; `Set.add` keeps an element that is
present, `Set.delete` removes it. -/
def handleOnlineStatus (data : Frame) (s : State) : State :=
  let s1 :=
    if data.is_online then
      { s with onlineUsers :=
          if s.onlineUsers.contains data.user_id then s.onlineUsers
          else s.onlineUsers ++ [data.user_id] }
    else { s with onlineUsers := s.onlineUsers.filter (fun u => u != data.user_id) }
  emit "online_status" (.frame data) s1

/-- Source: `handleIncomingMessage(data)` of the chat composable. -/
def handleIncomingMessage (data : Frame) (s : State) : State :=
  match data.type with
  | some "message" => emit "message" (.frame data) s
  | some "group_message" => emit "group_message" (.frame data) s
  | some "typing" => emit "typing" (.frame data) s
  | some "read" => emit "read" (.frame data) s
  | some "online_status" => handleOnlineStatus data s
  | some "error" => emit "error" (.frame data) s
  | some "pong" => s
  | _ => s

/-- Source: `showBrowserNotification(notification)`, given what the browser
reports about the `Notification` interface. -/
def showBrowserNotification (permission : DesktopPermission) (notification : Notification)
    (s : State) : State :=
  match permission with
  | .unsupported => s
  | .granted => { s with desktop := s.desktop ++ [.show notification] }
  | .denied => s
  | .default => { s with desktop := s.desktop ++ [.requestPermission notification] }

/-- Source: `handleNewNotification(notification)`. -/
def handleNewNotification (permission : DesktopPermission) (notification : Notification)
    (s : State) : State :=
  let s1 := { s with notifications := notification :: s.notifications }
  let s2 := if !notification.is_read then { s1 with unreadCount := s1.unreadCount + 1 } else s1
  let s3 := emit "notification" (.notification notification) s2
  showBrowserNotification permission notification s3

/-- Source: `handleIncomingNotification(data)`. -/
def handleIncomingNotification (permission : DesktopPermission) (data : NotificationFrame)
    (s : State) : State :=
  if data.type = some "notification" then
    handleNewNotification permission data.notification s
  else s

/-- Source: the part of `requestUnreadCount()` that runs when the REST response
carries the number `unread_count`. -/
def requestUnreadCountResponse (unread_count : Int) (s : State) : State :=
  { s with unreadCount := unread_count }

/-- JavaScript `notifications.value.find(n => n.id === notificationId)`: the
position of the first record with that id; the record object found is the one at
this position. -/
def findNotification (notificationId : Nat) : List Notification → Option Nat
  | [] => none
  | n :: rest =>
    if n.id = notificationId then some 0
    else (findNotification notificationId rest).map (fun k => k + 1)

/-- The assignment `notification.is_read = r` on the record object at position
`k` of the list. -/
def setIsRead (r : Bool) : Nat → List Notification → List Notification
  | _, [] => []
  | 0, n :: rest => { n with is_read := r } :: rest
  | k + 1, n :: rest => n :: setIsRead r k rest

/-- Source: `markAsRead(notificationId)` up to its `return`: the optimistic
update, then the token check and the start of the `fetch`.  The result is the
state and the returned boolean. -/
def markAsRead (notificationId : Nat) (s : State) : State × Bool :=
  let s1 :=
    match findNotification notificationId s.notifications with
    | some k =>
      match s.notifications[k]? with
      | some n =>
        if !n.is_read then
          { s with notifications := setIsRead true k s.notifications,
                   unreadCount := max 0 (s.unreadCount - 1) }
        else s
      | none => s
    | none => s
  if !tokenPresent s1.token then (s1, false)
  else ({ s1 with requests := s1.requests ++ [.markRead notificationId] }, true)

/-- Source: the `catch` callback of the `fetch` in `markAsRead`.  `found` is the
constant `notification` of the closure: the position at which the call found the
record, exact as long as the list was not restructured since the call. -/
def markAsReadFailed (found : Option Nat) (s : State) : State :=
  match found with
  | some k =>
    { s with notifications := setIsRead false k s.notifications,
             unreadCount := s.unreadCount + 1 }
  | none => s

/-- A notification of user 7, unread. -/
def note7 : Notification :=
  { id := 7, is_read := false, type := "like", content := "liked your post" }

/-- The unread-count response overtakes a frame: the socket delivers `note7`,
then the REST response computed before `note7` existed reports 0 unread. -/
def staleCountState : State :=
  requestUnreadCountResponse 0
    (handleIncomingNotification .denied { type := some "notification", notification := note7 }
      loggedIn)

/-! ## Remaining notification actions, sending, throttle, avatars, session store

The `catch` callbacks of `markAsRead` and `deleteNotification` close over what the
call found; the embedding passes that as an argument.  `throttle`, the avatar
helpers and the session store are separate modules of the front end.  The
strings of the avatar helpers are JavaScript strings, sequences of UTF-16 code
units: `s[0]` and `substring(0, 2)` cut between code units, and
`encodeURIComponent` is the function of the language standard, which throws
`URIError` on an unpaired surrogate.  `toUpperCase` (its table is not part of the
repository), `JSON.stringify` and the environment constant `USERS_BASE_URL` are
parameters. -/

/-- The number of records whose `is_read` flag is false. -/
def unreadOf (l : List Notification) : Int :=
  ((l.filter (fun n => !n.is_read)).length : Nat)

/-- The unread count equals the number of unread records of the list. -/
def Consistent (s : State) : Prop :=
  s.unreadCount = unreadOf s.notifications

/-- Source: `markAllAsRead()` up to its `return`. -/
def markAllAsRead (s : State) : State × Bool :=
  let s1 :=
    { s with notifications := s.notifications.map (fun n => { n with is_read := true }),
             unreadCount := 0 }
  if !tokenPresent s1.token then (s1, false)
  else (emit "all_read" .undefined { s1 with requests := s1.requests ++ [.markAllRead] }, true)

/-- Source: `deleteNotification(notificationId)` up to its `return`: the
optimistic removal (`findIndex`, `splice(index, 1)`, clamped decrement), the token
check, the start of the `fetch` and the `notification_deleted` event. -/
def deleteNotification (notificationId : Nat) (s : State) : State × Bool :=
  let s1 :=
    match findNotification notificationId s.notifications with
    | some index =>
      match s.notifications[index]? with
      | some removedNotification =>
        let s0 := { s with notifications := s.notifications.eraseIdx index }
        if !removedNotification.is_read then
          { s0 with unreadCount := max 0 (s0.unreadCount - 1) }
        else s0
      | none => s
    | none => s
  if !tokenPresent s1.token then (s1, false)
  else
    (emit "notification_deleted" (.id notificationId)
      { s1 with requests := s1.requests ++ [.delete notificationId] }, true)

/-- The constants `index` and `removedNotification` that the `catch` callback of
`deleteNotification` closes over; `none` when `findIndex` returned `-1`. -/
def deleteNotificationCaptured (notificationId : Nat) (s : State) :
    Option (Nat × Notification) :=
  match findNotification notificationId s.notifications with
  | some index =>
    match s.notifications[index]? with
    | some removedNotification => some (index, removedNotification)
    | none => none
  | none => none

/-- Source: the `catch` callback of the `fetch` in `deleteNotification`;
`splice(index, 0, removedNotification)` inserts before position `index`, at the
end when the list is shorter. -/
def deleteNotificationFailed (captured : Option (Nat × Notification)) (s : State) : State :=
  match captured with
  | some (index, removedNotification) =>
    let s1 :=
      { s with notifications :=
          s.notifications.take index ++ removedNotification :: s.notifications.drop index }
    if !removedNotification.is_read then { s1 with unreadCount := s1.unreadCount + 1 } else s1
  | none => s

/-- One record with id 7 that is already read, unread count 0, user logged in. -/
def readRecordState : State :=
  { loggedIn with notifications := [{ note7 with is_read := true }], unreadCount := 0 }

/-- The state `staleCountState` after a logout that cleared the token. -/
def staleCountNoToken : State :=
  { staleCountState with user := none, token := none }

/-- The text of a string field that is truthy: present and not empty. -/
def truthyText (x : Option String) : Option String :=
  match x with
  | some t => if t = "" then none else some t
  | none => none

/-- Source: `sendMessage(receiverId, content, imagePath)`; `timestamp` is
`new Date().toISOString()`, and `sendThrows` says whether the body of the `try`
block (serialising and `ws.value.send`) throws. -/
def sendMessage (sendThrows : Bool) (timestamp : String) (receiverId : Nat) (content : String)
    (imagePath : Option String) (s : State) : State × Bool :=
  match s.ws with
  | none => (s, false)
  | some i =>
    if !s.connected then (s, false)
    else if sendThrows then (s, false)
    else
      ({ s with sent := s.sent ++
          [(i, .message receiverId content (truthyText imagePath) timestamp)] }, true)

/-- Source: `sendGroupMessage(groupId, content)`. -/
def sendGroupMessage (sendThrows : Bool) (timestamp : String) (groupId : Nat) (content : String)
    (s : State) : State × Bool :=
  match s.ws with
  | none => (s, false)
  | some i =>
    if !s.connected then (s, false)
    else if sendThrows then (s, false)
    else ({ s with sent := s.sent ++ [(i, .group_message groupId content timestamp)] }, true)

/-- A stale close event followed by the open event of the next socket: socket 0
is open, `disconnect()` and `connect()` follow each other, the close event of
socket 0 arrives late and clears `ws`, then socket 1 opens. -/
def heartbeatOrphanTrace : List Ev :=
  [login, .connect false, .sockOpen 0, .disconnect, .connect false, .sockClose 0 1000 "",
   .sockOpen 1]

/-- User 7 connects and socket 0 opens. -/
def connectedTrace : List Ev :=
  [login, .connect false, .sockOpen 0]

/-- The state that `connectedTrace` leads to: socket 0 of user 7 is open and the
heartbeat interval 1 is armed. -/
def connectedState : State :=
  { firstAttempt with connected := true, connecting := false,
                      sockets := [{ readyState := .OPEN, userId := 7 }],
                      heartbeatTimer := some 1, intervals := [1], nextTimer := 2,
                      chatWebSocket := some 0 }

/-- After `leakedTimerTrace` a third socket is built by hand and opens, with
timers 1 and 2 still pending. -/
def leakedConnectedTrace : List Ev :=
  leakedTimerTrace ++ [.connect false, .sockOpen 2]

/-- Source: the function returned by `throttle(func, delay)`, as a transformer of
its closure variable `lastCall`: called at clock time `now` with `args`, it gives
the new `lastCall` and the returned value, `none` for `undefined`. -/
def throttle {α β : Type} (func : α → β) (delay : Int) (now : Int) (args : α) (lastCall : Int) :
    Int × Option β :=
  if now - lastCall ≥ delay then (now, some (func args)) else (lastCall, none)

/-- A sequence of calls of one throttled function, each with its clock time,
starting from the given `lastCall`: the clock time and the returned value of
every call. -/
def throttleRun {α β : Type} (func : α → β) (delay : Int) :
    List (Int × α) → Int → List (Int × Option β)
  | [], _ => []
  | (now, args) :: rest, lastCall =>
    (now, (throttle func delay now args lastCall).2) ::
      throttleRun func delay rest (throttle func delay now args lastCall).1

/-- The closure variable `lastCall` after a sequence of calls. -/
def throttleLast {α β : Type} (func : α → β) (delay : Int) : List (Int × α) → Int → Int
  | [], lastCall => lastCall
  | (now, args) :: rest, lastCall =>
    throttleLast func delay rest (throttle func delay now args lastCall).1

/-- The clock times of the calls that invoked `func`. -/
def invokingTimes {β : Type} (results : List (Int × Option β)) : List Int :=
  (results.filter (fun r => r.2.isSome)).map Prod.fst

/-- A JavaScript string: the sequence of its UTF-16 code units. -/
abbrev JsString := List Nat

/-- The code units of a text; a code point above the Basic Multilingual Plane
becomes a surrogate pair. -/
def utf16 (text : String) : JsString :=
  (text.toList.map (fun c =>
    if c.toNat < 65536 then [c.toNat]
    else [55296 + (c.toNat - 65536) / 1024, 56320 + (c.toNat - 65536) % 1024])).flatten

/-- The user object that `getUserAvatarUrl` reads; an absent field is `none`. -/
structure AvatarUser where
  avatar_path : Option JsString
  first_name : Option JsString
  last_name : Option JsString
  username : Option JsString
  nickname : Option JsString
  deriving DecidableEq, Repr

/-- The value of a string field that is truthy: present and not empty. -/
def truthyUnits (x : Option JsString) : Option JsString :=
  match x with
  | some (c :: rest) => some (c :: rest)
  | _ => none

/-- The code units that `encodeURIComponent` leaves as they are: letters, digits
and the marks `- _ . ! ~ * ' ( )`. -/
def uriUnreserved (c : Nat) : Bool :=
  (65 ≤ c && c ≤ 90) || (97 ≤ c && c ≤ 122) || (48 ≤ c && c ≤ 57) ||
    [45, 95, 46, 33, 126, 42, 39, 40, 41].contains c

/-- One upper-case hexadecimal digit as a code unit. -/
def hexDigit (n : Nat) : Nat :=
  if n < 10 then 48 + n else 55 + n

/-- The escape `%XX` of every octet. -/
def percentEncode (octets : List Nat) : JsString :=
  (octets.map (fun b => [37, hexDigit (b / 16), hexDigit (b % 16)])).flatten

/-- The UTF-8 octets of a code point. -/
def utf8Octets (cp : Nat) : List Nat :=
  if cp < 128 then [cp]
  else if cp < 2048 then [192 + cp / 64, 128 + cp % 64]
  else if cp < 65536 then [224 + cp / 4096, 128 + (cp / 64) % 64, 128 + cp % 64]
  else [240 + cp / 262144, 128 + (cp / 4096) % 64, 128 + (cp / 64) % 64, 128 + cp % 64]

/-- JavaScript `encodeURIComponent(string)` as the language standard defines it;
`none` is the `URIError` thrown for an unpaired surrogate. -/
def encodeURIComponent : JsString → Option JsString
  | [] => some []
  | [c] =>
    if uriUnreserved c then some [c]
    else if 55296 ≤ c ∧ c ≤ 57343 then none
    else some (percentEncode (utf8Octets c))
  | c :: d :: rest =>
    if uriUnreserved c then (encodeURIComponent (d :: rest)).map (fun r => c :: r)
    else if c < 55296 ∨ 57343 < c then
      (encodeURIComponent (d :: rest)).map (fun r => percentEncode (utf8Octets c) ++ r)
    else if 56320 ≤ c then none
    else if 56320 ≤ d ∧ d ≤ 57343 then
      (encodeURIComponent rest).map (fun r =>
        percentEncode (utf8Octets ((c - 55296) * 1024 + (d - 56320) + 65536)) ++ r)
    else none

/-- The part of `toUpperCase` that needs no table: the letters `a` to `z` become
`A` to `Z`; digits, marks and surrogates stay, as they do in JavaScript. -/
def toUpperCaseAscii (s : JsString) : JsString :=
  s.map (fun c => if 97 ≤ c ∧ c ≤ 122 then c - 32 else c)

/-- Source: `getAvatarUrl(avatarPath)` of `services/usersService.js`. -/
def getAvatarUrlService (USERS_BASE_URL : JsString) (avatarPath : Option JsString) :
    JsString :=
  match truthyUnits avatarPath with
  | none => []
  | some path => if (utf16 "http").isPrefixOf path then path else USERS_BASE_URL ++ path

/-- The template literal of the placeholder address for a square of side `size`
with the given text. -/
def placeholderUrl (size : Nat) (text : JsString) : JsString :=
  utf16 "https://placehold.co/" ++ utf16 (toString size) ++ utf16 "x" ++
    utf16 (toString size) ++ utf16 "/161832/fff?text=" ++ text

/-- Source: `getAvatarUrl(avatarPath, fallbackText)` of the composable; `none`
when `encodeURIComponent` throws. -/
def getAvatarUrl (USERS_BASE_URL : JsString) (avatarPath : Option JsString)
    (fallbackText : JsString) : Option JsString :=
  match truthyUnits avatarPath with
  | none => (encodeURIComponent fallbackText).map (placeholderUrl 140)
  | some path => some (getAvatarUrlService USERS_BASE_URL (some path))

/-- Source: `getUserAvatarUrl(user, size)`; `none` when `encodeURIComponent`
throws. -/
def getUserAvatarUrl (toUpperCase : JsString → JsString) (USERS_BASE_URL : JsString)
    (user : Option AvatarUser) (size : Nat) : Option JsString :=
  match user with
  | none => some (placeholderUrl size (utf16 "?"))
  | some u =>
    match truthyUnits u.avatar_path with
    | some path => getAvatarUrl USERS_BASE_URL (some path) (utf16 "?")
    | none =>
      let initials :=
        match truthyUnits u.first_name, truthyUnits u.last_name with
        | some first, some last => toUpperCase (first.take 1 ++ last.take 1)
        | _, _ =>
          match truthyUnits u.username with
          | some username => toUpperCase (username.take 2)
          | none =>
            match truthyUnits u.nickname with
            | some nickname => toUpperCase (nickname.take 2)
            | none => utf16 "?"
      (encodeURIComponent initials).map (placeholderUrl size)

/-- A user without avatar whose first name starts with a character above the
Basic Multilingual Plane: first name U+1F600 followed by `ann`, last name `lee`. -/
def emojiFirstName : AvatarUser :=
  { avatar_path := none, first_name := some ([55357, 56832] ++ utf16 "ann"),
    last_name := some (utf16 "lee"), username := none, nickname := none }

/-- A user without avatar and without names, only a user name or a nick name. -/
def namedUser (username nickname : Option JsString) : AvatarUser :=
  { avatar_path := none, first_name := none, last_name := none, username := username,
    nickname := nickname }

/-- Browser `localStorage.setItem(key, value)`. -/
def setItem (key value : String) (storage : List (String × String)) : List (String × String) :=
  (key, value) :: storage.filter (fun p => p.1 != key)

/-- Browser `localStorage.removeItem(key)`. -/
def removeItem (key : String) (storage : List (String × String)) : List (String × String) :=
  storage.filter (fun p => p.1 != key)

/-- Source: `getUser()`. -/
def getUser (s : State) : Option User :=
  s.user

/-- Source: `getToken()`. -/
def getToken (s : State) : Option String :=
  s.token

/-- Source: `clearUser()`. -/
def clearUser (s : State) : State :=
  { s with user := none, token := none,
           localStorage := removeItem "token" (removeItem "user" s.localStorage) }

/-- Source: `setUser(userData, authToken, options)` with `options.persist`.
`quota key` says whether `localStorage.setItem(key, ...)` throws; the flag of the
result says whether `setUser` threw.  `stringify` is `JSON.stringify`. -/
def setUser (quota : String → Bool) (stringify : User → String) (userData : Option User)
    (authToken : Option String) (persist : Bool) (s : State) : State × Bool :=
  let s1 := { s with user := userData, token := authToken }
  match userData, truthyText authToken with
  | some u, some t =>
    if persist then
      if quota "user" then (s1, true)
      else
        let s2 := { s1 with localStorage := setItem "user" (stringify u) s1.localStorage }
        if quota "token" then (s2, true)
        else ({ s2 with localStorage := setItem "token" t s2.localStorage }, false)
    else
      ({ s1 with localStorage := removeItem "token" (removeItem "user" s1.localStorage) }, false)
  | _, _ => (clearUser s1, false)

/-- Source: `isAuthenticated()`. -/
def isAuthenticated (s : State) : Bool :=
  s.user.isSome && tokenPresent s.token

/-! ## Auxiliary facts about the embedded functions -/

/-- The function `emit` only appends to the record of callback invocations. -/
theorem emit_eq (event : String) (data : Payload) (s : State) :
    emit event data s =
      { s with invoked := s.invoked ++
          ((s.eventListeners.lookup event).getD []).map (fun cb => (cb, data)) } := by
  unfold emit
  cases h : s.eventListeners.lookup event <;> simp

/-- The function `stopHeartbeat` clears the tracked interval and the handle. -/
theorem stopHeartbeat_eq (s : State) :
    stopHeartbeat s =
      { s with intervals := (match s.heartbeatTimer with
                 | some h => s.intervals.filter (fun i => i != h)
                 | none => s.intervals),
               heartbeatTimer := none } := by
  unfold stopHeartbeat
  obtain ⟨ws, cd, cg, ra, nt, uc, el, ht, rt, us, tk, sk, tmo, iv, nx, cc, se, inv, rq, gl,
    ou, dk, ls⟩ := s
  cases ht <;> rfl

/-- The function `connect` never touches the reconnect counter. -/
theorem connect_reconnectAttempts (ctorThrows : Bool) (s : State) :
    (connect ctorThrows s).reconnectAttempts = s.reconnectAttempts := by
  unfold connect
  repeat (first | rfl | split)

/-- The function `disconnect` resets the reconnect counter. -/
theorem disconnect_reconnectAttempts (v : Variant) (s : State) :
    (disconnect v s).reconnectAttempts = 0 := by
  cases v <;> rfl

/-- The handler `onopen` resets the reconnect counter. -/
theorem onopen_reconnectAttempts (v : Variant) (userId : Nat) (s : State) :
    (onopen v userId s).reconnectAttempts = 0 := by
  cases v <;>
    simp [onopen, emit_eq, startHeartbeat, stopHeartbeat_eq, requestUnreadCount,
      loadNotifications, apply_ite]

/-- The handler `onclose` keeps the reconnect counter below the cap. -/
theorem onclose_reconnectAttempts_le (v : Variant) (code : Nat) (reason : String) (s : State)
    (h : s.reconnectAttempts ≤ config.maxReconnectAttempts) :
    (onclose v code reason s).reconnectAttempts ≤ config.maxReconnectAttempts := by
  by_cases hc : code ≠ 1000 ∧ s.reconnectAttempts < config.maxReconnectAttempts
  · obtain ⟨h1, h2⟩ := hc
    cases v <;>
      simp [onclose, emit_eq, stopHeartbeat_eq, scheduleReconnect, h1, h2] <;> omega
  · cases v <;>
      simp [onclose, emit_eq, stopHeartbeat_eq, scheduleReconnect, hc] <;> exact h

/-- A heartbeat tick keeps the reconnect counter below the cap. -/
theorem heartbeatTick_reconnectAttempts_le (sendThrows ctorThrows : Bool) (s : State)
    (h : s.reconnectAttempts ≤ config.maxReconnectAttempts) :
    (heartbeatTick sendThrows ctorThrows s).reconnectAttempts ≤ config.maxReconnectAttempts := by
  unfold heartbeatTick
  split
  · split
    · split
      · rw [connect_reconnectAttempts, disconnect_reconnectAttempts]; exact Nat.zero_le _
      · exact h
    · exact h
  · exact h

/-- Every turn of the event loop keeps the reconnect counter below the cap. -/
theorem step_reconnectAttempts_le (v : Variant) (e : Ev) (s s1 : State)
    (hs : step v e s = some s1) (h : s.reconnectAttempts ≤ config.maxReconnectAttempts) :
    s1.reconnectAttempts ≤ config.maxReconnectAttempts := by
  cases e with
  | connect ct =>
    simp only [step, Option.some.injEq] at hs
    subst hs; rw [connect_reconnectAttempts]; exact h
  | disconnect =>
    simp only [step, Option.some.injEq] at hs
    subst hs; rw [disconnect_reconnectAttempts]; exact Nat.zero_le _
  | timerFire t ct =>
    simp only [step] at hs
    split at hs
    · simp only [Option.some.injEq] at hs
      subst hs; rw [reconnectTimerCallback, connect_reconnectAttempts]; exact h
    · cases hs
  | heartbeat st ct =>
    simp only [step] at hs
    split at hs
    · split at hs
      · simp only [Option.some.injEq] at hs
        subst hs; exact heartbeatTick_reconnectAttempts_le _ _ _ h
      · cases hs
    · cases hs
  | sockOpen i =>
    simp only [step] at hs
    split at hs
    · split at hs
      · simp only [Option.some.injEq] at hs
        subst hs; rw [onopen_reconnectAttempts]; exact Nat.zero_le _
      · cases hs
    · cases hs
  | sockError i =>
    simp only [step] at hs
    split at hs
    · split at hs
      · cases hs
      · simp only [Option.some.injEq] at hs
        subst hs; exact h
    · cases hs
  | sockClose i code reason =>
    simp only [step] at hs
    split at hs
    · split at hs
      · cases hs
      · simp only [Option.some.injEq] at hs
        subst hs; exact onclose_reconnectAttempts_le _ _ _ _ h
    · cases hs
  | session u t =>
    simp only [step, Option.some.injEq] at hs
    subst hs; exact h

/-- Every run keeps the reconnect counter below the cap. -/
theorem run_reconnectAttempts_le (v : Variant) (es : List Ev) :
    ∀ s s1 : State, run v es s = some s1 →
      s.reconnectAttempts ≤ config.maxReconnectAttempts →
      s1.reconnectAttempts ≤ config.maxReconnectAttempts := by
  induction es with
  | nil =>
    intro s s1 hr h
    simp only [run, Option.some.injEq] at hr
    subst hr; exact h
  | cons e es ih =>
    intro s s1 hr h
    simp only [run] at hr
    cases hstep : step v e s with
    | none => rw [hstep] at hr; cases hr
    | some s2 =>
      rw [hstep] at hr
      exact ih s2 s1 hr (step_reconnectAttempts_le v e s s2 hstep h)

/-- One cycle of `capRun` below the cap: the close event schedules exactly one
timer, the timer fires and `connect()` builds the next socket. -/
theorem capRun_cycle (v : Variant) (code : Nat) (reason : String) (n : Nat) (s : State)
    (hs : CapReady n s) (hc : code ≠ 1000) (hn : n < config.maxReconnectAttempts) :
    ∃ i s1 s2, s.ws = some i ∧ step v (.sockClose i code reason) s = some s1 ∧
      s1.timeouts = [(s.nextTimer, config.reconnectDelay * (n + 1))] ∧
      step v (.timerFire s.nextTimer false) s1 = some s2 ∧ CapReady (n + 1) s2 := by
  obtain ⟨i, sk, hws, hsk, hrs, hra, hto, hu, htk⟩ := hs
  obtain ⟨u, hu⟩ := Option.ne_none_iff_exists'.mp hu
  subst hra
  have h1 : step v (.sockClose i code reason) s = some (onclose v code reason
      { s with sockets := s.sockets.set i { sk with readyState := .CLOSED } }) := by
    simp only [step, hsk, hrs, if_false]
  have ht : (onclose v code reason
      { s with sockets := s.sockets.set i { sk with readyState := .CLOSED } }).timeouts =
      [(s.nextTimer, config.reconnectDelay * (s.reconnectAttempts + 1))] := by
    cases v <;>
      simp [onclose, emit_eq, stopHeartbeat_eq, scheduleReconnect, hc, hn, hto]
  refine ⟨i, _, connect false { (onclose v code reason
      { s with sockets := s.sockets.set i { sk with readyState := .CLOSED } }) with
        timeouts := [] }, hws, h1, ht, ?_, ?_⟩
  · simp [step, ht, reconnectTimerCallback]
  · refine ⟨s.sockets.length, { readyState := .CONNECTING, userId := u.id }, ?_⟩
    cases v <;>
      simp [connect, onclose, emit_eq, stopHeartbeat_eq, scheduleReconnect, hc, hn, hto,
        hu, htk]

/-- The close event at the cap schedules nothing and leaves the manager
disconnected. -/
theorem capRun_last (v : Variant) (code : Nat) (reason : String) (s : State)
    (hs : CapReady config.maxReconnectAttempts s) :
    ∃ i s1, s.ws = some i ∧ step v (.sockClose i code reason) s = some s1 ∧
      s1.timeouts = [] ∧ s1.ws = none ∧ s1.connected = false ∧ s1.connecting = false ∧
      s1.reconnectAttempts = config.maxReconnectAttempts := by
  obtain ⟨i, sk, hws, hsk, hrs, hra, hto, -, -⟩ := hs
  have h1 : step v (.sockClose i code reason) s = some (onclose v code reason
      { s with sockets := s.sockets.set i { sk with readyState := .CLOSED } }) := by
    simp only [step, hsk, hrs, if_false]
  refine ⟨i, _, hws, h1, ?_⟩
  cases v <;>
    simp [onclose, emit_eq, stopHeartbeat_eq, scheduleReconnect, hto, hra]

/-- The run `capRun` from counter `n`: every close below the cap schedules one
timer, the close at the cap none. -/
theorem capRun_spec (v : Variant) :
    ∀ (cs : List (Nat × String)) (n : Nat) (s : State), CapReady n s →
      n + cs.length = config.maxReconnectAttempts + 1 → n ≤ config.maxReconnectAttempts →
      (∀ c ∈ cs, c.1 ≠ 1000) →
      ∃ sf, capRun v cs s =
          some (List.replicate (config.maxReconnectAttempts - n) 1 ++ [0], sf) ∧
        sf.ws = none ∧ sf.connected = false ∧ sf.connecting = false ∧ sf.timeouts = [] ∧
        sf.reconnectAttempts = config.maxReconnectAttempts := by
  intro cs
  induction cs with
  | nil =>
    intro n s _ hlen hn _
    simp only [List.length_nil, Nat.add_zero] at hlen
    omega
  | cons c rest ih =>
    intro n s hs hlen hn hcodes
    obtain ⟨code, reason⟩ := c
    have hc : code ≠ 1000 := hcodes (code, reason) (List.mem_cons_self _ _)
    simp only [List.length_cons] at hlen
    rcases Nat.lt_or_ge n config.maxReconnectAttempts with hlt | hge
    · obtain ⟨i, s1, s2, hws, h1, ht, h2, hready⟩ := capRun_cycle v code reason n s hs hc hlt
      obtain ⟨sf, hrun, hrest⟩ := ih (n + 1) s2 hready (by omega) hlt
        (fun c hc => hcodes c (List.mem_cons_of_mem _ hc))
      have hto : s.timeouts = [] := by
        obtain ⟨_, _, _, _, _, _, h, _⟩ := hs
        exact h
      refine ⟨sf, ?_, hrest⟩
      have hrep : config.maxReconnectAttempts - n = (config.maxReconnectAttempts - (n + 1)) + 1 := by
        omega
      rw [hrep, List.replicate_succ]
      simp [capRun, hws, h1, ht, h2, hrun, hto]
    · have hn5 : n = config.maxReconnectAttempts := Nat.le_antisymm hn hge
      subst hn5
      have hrest : rest = [] := List.length_eq_zero.mp (by omega)
      subst hrest
      obtain ⟨i, s1, hws, h1, ht, hw, hcd, hcg, hr⟩ := capRun_last v code reason s hs
      have hto : s.timeouts = [] := by
        obtain ⟨_, _, _, _, _, _, h, _⟩ := hs
        exact h
      refine ⟨s1, ?_, hw, hcd, hcg, ht, hr⟩
      simp [capRun, hws, h1, ht, hto]

/-! ## The claims -/

/-- C1 (evaluation at the failing input): after the trace `staleCloseTrace`, in
which the close event of a socket closed by `disconnect()` arrives after the next
`connect()`, two sockets are open at the same time, none of them closed by the
client, in the chat manager and in the notifications manager; already after the
fifth event two sockets have not delivered their close event. -/
theorem stale_close_two_open_sockets :
    Option.map openSockets (run .chat staleCloseTrace init) = some 2 ∧
    Option.map live (run .chat staleCloseTrace init) = some 2 ∧
    Option.map openSockets (run .notifications staleCloseTrace init) = some 2 ∧
    Option.map live (run .notifications staleCloseTrace init) = some 2 ∧
    Option.map undelivered (run .chat (staleCloseTrace.take 5) init) = some 2 := by
  decide

/-- C2 (counterexample): in the state `loggedIn` no socket reference is held,
`connecting` is false, user and token are present, and yet `connect()` opens no
socket and does not move to Connecting when the socket constructor throws. -/
theorem connect_ctor_failure_opens_nothing :
    (loggedIn.ws = none ∧ loggedIn.connecting = false ∧ loggedIn.user ≠ none ∧
      tokenPresent loggedIn.token = true) ∧
    (connect true loggedIn).sockets = loggedIn.sockets ∧
    (connect true loggedIn).ws = none ∧
    (connect true loggedIn).connecting = false := by
  decide

/-- C2 (amended): `connect()` opens a socket exactly when no socket reference is
held, `connecting` is false, user and token are present and the socket
constructor does not throw; it then sets `connecting`, stores the new socket in
`ws` and changes nothing else.  In every other case, a caught constructor failure
included, `connect()` returns the state unchanged. -/
theorem connect_opens_iff (ctorThrows : Bool) (s : State) :
    ((connect ctorThrows s).sockets ≠ s.sockets ↔
      (s.ws = none ∧ s.connecting = false ∧ s.user ≠ none ∧ tokenPresent s.token = true ∧
        ctorThrows = false)) ∧
    (∀ user, s.ws = none → s.connecting = false → s.user = some user →
        tokenPresent s.token = true → ctorThrows = false →
      connect ctorThrows s =
        { s with connecting := true, ws := some s.sockets.length,
                 sockets := s.sockets ++ [{ readyState := .CONNECTING, userId := user.id }] }) ∧
    (¬ (s.ws = none ∧ s.connecting = false ∧ s.user ≠ none ∧ tokenPresent s.token = true ∧
        ctorThrows = false) → connect ctorThrows s = s) := by
  obtain ⟨ws, cd, cg, ra, nt, uc, el, ht, rt, us, tk, sk, tmo, iv, nx, cc, se, inv, rq, gl,
    ou, dk, ls⟩ := s
  cases ws <;> cases cg <;> cases us <;> cases ctorThrows <;>
    cases h : tokenPresent tk <;> simp [connect, h]

/-- C3 (evaluation at the failing input): after `leakedTimerTrace` two reconnect
timers are pending and `reconnectTimer` holds the second; `disconnect()` cancels
only that one, so timer 1, scheduled before the disconnect, is still pending
after it, and when it fires a socket is opened although `connect()` was not
called after the disconnect. -/
theorem leaked_timer_survives_disconnect :
    Option.map State.timeouts (run .chat leakedTimerTrace init) = some [(1, 3000), (2, 6000)] ∧
    Option.map State.timeouts (run .chat (leakedTimerTrace ++ [.disconnect]) init)
      = some [(1, 3000)] ∧
    Option.map State.reconnectTimer (run .chat (leakedTimerTrace ++ [.disconnect]) init)
      = some none ∧
    Option.map live (run .chat (leakedTimerTrace ++ [.disconnect]) init) = some 0 ∧
    Option.map live (run .chat (leakedTimerTrace ++ [.disconnect, .timerFire 1 false]) init)
      = some 1 ∧
    Option.map State.ws (run .chat (leakedTimerTrace ++ [.disconnect, .timerFire 1 false]) init)
      = some (some 2) ∧
    Option.map live
        (run .notifications (leakedTimerTrace ++ [.disconnect, .timerFire 1 false]) init)
      = some 1 := by
  decide

/-- C4: from every state, after `disconnect()` the socket reference is `null`,
`connected` and `connecting` are false and the reconnect counter is 0;
`close(1000, "Client disconnect")` is called on the referenced socket exactly
when a reference was held, and on no socket otherwise; in the notifications
variant the notifications list is empty and the unread count is 0. -/
theorem disconnect_post_state (v : Variant) (s : State) :
    (disconnect v s).ws = none ∧ (disconnect v s).connected = false ∧
    (disconnect v s).connecting = false ∧ (disconnect v s).reconnectAttempts = 0 ∧
    (disconnect v s).closeCalls =
      s.closeCalls ++ (match s.ws with
        | some i => [(i, 1000, "Client disconnect")]
        | none => []) ∧
    (v = .notifications →
      (disconnect v s).notifications = [] ∧ (disconnect v s).unreadCount = 0) := by
  cases v <;> cases hw : s.ws <;> cases hr : s.reconnectTimer <;>
    simp [disconnect, stopHeartbeat_eq, clearNotifications, hw, hr]

/-- C5: the close handler schedules a reconnect timer if and only if the close
code is not 1000 and the reconnect counter is below `maxReconnectAttempts` (5);
when it schedules, exactly one timer is added and the counter grows by exactly 1;
otherwise, and in particular for code 1000, no timer is added and the counter is
unchanged. -/
theorem onclose_reconnect_decision (v : Variant) (code : Nat) (reason : String) (s : State) :
    config.maxReconnectAttempts = 5 ∧
    ((onclose v code reason s).timeouts ≠ s.timeouts ↔
        (code ≠ 1000 ∧ s.reconnectAttempts < config.maxReconnectAttempts)) ∧
    (code ≠ 1000 ∧ s.reconnectAttempts < config.maxReconnectAttempts →
        (onclose v code reason s).timeouts =
          s.timeouts ++ [(s.nextTimer, config.reconnectDelay * (s.reconnectAttempts + 1))] ∧
        (onclose v code reason s).reconnectAttempts = s.reconnectAttempts + 1) ∧
    (¬ (code ≠ 1000 ∧ s.reconnectAttempts < config.maxReconnectAttempts) →
        (onclose v code reason s).timeouts = s.timeouts ∧
        (onclose v code reason s).reconnectAttempts = s.reconnectAttempts) ∧
    ((onclose v 1000 reason s).timeouts = s.timeouts ∧
        (onclose v 1000 reason s).reconnectAttempts = s.reconnectAttempts) := by
  refine ⟨rfl, ?_⟩
  by_cases h : code ≠ 1000 ∧ s.reconnectAttempts < config.maxReconnectAttempts
  · obtain ⟨h1, h2⟩ := h
    cases v <;>
      simp [onclose, emit_eq, stopHeartbeat_eq, scheduleReconnect, h1, h2]
  · cases v <;>
      simp [onclose, emit_eq, stopHeartbeat_eq, scheduleReconnect, h]

/-- C6: from a state with reconnect counter 0, a referenced socket that has not
delivered its close event, no pending timer and a session present, a run of
`maxReconnectAttempts + 1` abnormal closes in which every scheduled reconnect
fires goes through; each of the first `maxReconnectAttempts` closes schedules
exactly one timer and the last one none, and the manager ends disconnected with
no pending timer. -/
theorem attempt_cap (v : Variant) (cs : List (Nat × String)) (s : State) (i : Nat) (sk : Socket)
    (hws : s.ws = some i) (hsk : s.sockets[i]? = some sk) (hrs : sk.readyState ≠ .CLOSED)
    (hra : s.reconnectAttempts = 0) (hto : s.timeouts = [])
    (hu : s.user ≠ none) (htk : tokenPresent s.token = true)
    (hlen : cs.length = config.maxReconnectAttempts + 1) (hcodes : ∀ c ∈ cs, c.1 ≠ 1000) :
    ∃ sf, capRun v cs s = some (List.replicate config.maxReconnectAttempts 1 ++ [0], sf) ∧
      sf.ws = none ∧ sf.connected = false ∧ sf.connecting = false ∧ sf.timeouts = [] := by
  obtain ⟨sf, h1, h2, h3, h4, h5, _⟩ :=
    capRun_spec v cs 0 s ⟨i, sk, hws, hsk, hrs, hra, hto, hu, htk⟩ (by omega) (Nat.zero_le _) hcodes
  exact ⟨sf, h1, h2, h3, h4, h5⟩

/-- C6 (witness): six closes with code 1006 after the first `connect()`. -/
theorem attempt_cap_witness :
    ∃ sf, capRun .chat (List.replicate 6 (1006, "")) firstAttempt =
        some (List.replicate config.maxReconnectAttempts 1 ++ [0], sf) ∧
      sf.ws = none ∧ sf.connected = false ∧ sf.connecting = false ∧ sf.timeouts = [] :=
  attempt_cap .chat (List.replicate 6 (1006, "")) firstAttempt 0
    { readyState := .CONNECTING, userId := 7 } rfl rfl (by decide) rfl rfl (by decide) (by decide)
    rfl (by decide)

/-- C7: `scheduleReconnect` increments the counter by one and schedules one
timer whose delay is `reconnectDelay` (3000 ms) times the new counter; five
consecutive attempts from counter 0 get the delays 3000, 6000, 9000, 12000 and
15000, which increase strictly and are not the exponential sequence. -/
theorem scheduleReconnect_linear_backoff (s : State) :
    (scheduleReconnect s).reconnectAttempts = s.reconnectAttempts + 1 ∧
    (scheduleReconnect s).timeouts =
      s.timeouts ++ [(s.nextTimer, 3000 * (s.reconnectAttempts + 1))] ∧
    (scheduleReconnect s).reconnectTimer = some s.nextTimer ∧
    config.reconnectDelay = 3000 ∧
    ((scheduleReconnect^[5] { s with reconnectAttempts := 0, timeouts := [] }).timeouts.map
        Prod.snd = [3000, 6000, 9000, 12000, 15000]) ∧
    List.Pairwise (fun a b => a < b) [3000, 6000, 9000, 12000, 15000] ∧
    (3000 * 3 ≠ 3000 * 2 ^ 2) := by
  refine ⟨rfl, rfl, rfl, rfl, ?_, by decide, by decide⟩
  simp [scheduleReconnect, config]

/-- C8: in every reachable state the reconnect counter is between 0 and
`maxReconnectAttempts` (5), and it is 0 right after every transport-open and
every `disconnect()`. -/
theorem reconnectAttempts_bounded (v : Variant) (s : State) (h : Reachable v s) :
    (0 ≤ s.reconnectAttempts ∧ s.reconnectAttempts ≤ config.maxReconnectAttempts) ∧
    config.maxReconnectAttempts = 5 ∧
    (∀ i s1, step v (.sockOpen i) s = some s1 → s1.reconnectAttempts = 0) ∧
    (∀ s1, step v .disconnect s = some s1 → s1.reconnectAttempts = 0) := by
  obtain ⟨es, hes⟩ := h
  refine ⟨⟨Nat.zero_le _, run_reconnectAttempts_le v es init s hes (by decide)⟩, rfl, ?_, ?_⟩
  · intro i s1 hs
    simp only [step] at hs
    split at hs
    · split at hs
      · simp only [Option.some.injEq] at hs
        subst hs; exact onopen_reconnectAttempts _ _ _
      · cases hs
    · cases hs
  · intro s1 hs
    simp only [step, Option.some.injEq] at hs
    subst hs; exact disconnect_reconnectAttempts _ _

/-- C8 (witness): the state after one abnormal close, with counter 1. -/
theorem reconnectAttempts_bounded_witness :
    ∃ s, run .chat [login, .connect false, .sockClose 0 1006 ""] init = some s ∧
      s.reconnectAttempts = 1 ∧ s.reconnectAttempts ≤ config.maxReconnectAttempts :=
  ⟨_, rfl, rfl,
    (reconnectAttempts_bounded .chat _
      ⟨[login, .connect false, .sockClose 0 1006 ""], rfl⟩).1.2⟩

/-- C9 (evaluation at the failing input): after `leakedTimerTrace` two reconnect
timers are pending at once; after `disconnect()` one of them is still pending;
and after a successful transport-open (`openWhilePendingTrace`) a reconnect timer
is still pending. -/
theorem two_reconnect_timers_pending :
    Option.map (List.length ∘ State.timeouts) (run .chat leakedTimerTrace init) = some 2 ∧
    Option.map (List.length ∘ State.timeouts)
        (run .chat (leakedTimerTrace ++ [.disconnect]) init) = some 1 ∧
    Option.map State.timeouts (run .chat openWhilePendingTrace init) = some [(1, 3000)] ∧
    Option.map State.connected (run .chat openWhilePendingTrace init) = some true ∧
    Option.map (List.length ∘ State.timeouts) (run .notifications leakedTimerTrace init)
      = some 2 := by
  decide

/-- C10 (evaluation at the failing input): after `bothFlagsTrace` the flags
`connected` and `connecting` are both true, in the chat manager and in the
notifications manager. -/
theorem connected_and_connecting_both_true :
    Option.map State.connected (run .chat bothFlagsTrace init) = some true ∧
    Option.map State.connecting (run .chat bothFlagsTrace init) = some true ∧
    Option.map State.connected (run .notifications bothFlagsTrace init) = some true ∧
    Option.map State.connecting (run .notifications bothFlagsTrace init) = some true := by
  decide

/-! ## Dispatcher, frames and notification records: auxiliary facts and claims -/

/-- Updating the array of `event` shows under `event`. -/
theorem lookup_modifyListeners_self (event : String) (f : List Nat → List Nat)
    (reg : List (String × List Nat)) :
    (modifyListeners event f reg).lookup event = (reg.lookup event).map f := by
  induction reg with
  | nil => rfl
  | cons p rest ih =>
    obtain ⟨k, l⟩ := p
    by_cases h : event = k
    · subst h
      simp [modifyListeners, List.lookup]
    · have hb : (event == k) = false := by simpa using h
      simp [modifyListeners, List.lookup, hb, ih]

/-- Updating the array of `event` leaves every other entry alone. -/
theorem lookup_modifyListeners_ne (event e : String) (f : List Nat → List Nat)
    (reg : List (String × List Nat)) (hne : e ≠ event) :
    (modifyListeners event f reg).lookup e = reg.lookup e := by
  induction reg with
  | nil => rfl
  | cons p rest ih =>
    obtain ⟨k, l⟩ := p
    by_cases h : event = k
    · subst h
      have hb : (e == event) = false := by simpa using hne
      simp [modifyListeners, List.lookup, hb]
    · have hb : (event == k) = false := by simpa using h
      by_cases h2 : e = k
      · subst h2
        simp [modifyListeners, List.lookup, hb]
      · have hb2 : (e == k) = false := by simpa using h2
        simp [modifyListeners, List.lookup, hb, hb2, ih]

/-- Lookup after `set(event, [])` on a map that may lack the entry. -/
theorem lookup_append_new (event e : String) (reg : List (String × List Nat)) :
    (reg ++ [(event, [])]).lookup e =
      match reg.lookup e with
      | some l => some l
      | none => if e = event then some [] else none := by
  induction reg with
  | nil =>
    by_cases h : e = event
    · subst h; simp [List.lookup]
    · have hb : (e == event) = false := by simpa using h
      simp [List.lookup, hb, h]
  | cons p rest ih =>
    obtain ⟨k, l⟩ := p
    by_cases h2 : e = k
    · subst h2
      simp [List.lookup]
    · have hb2 : (e == k) = false := by simpa using h2
      simp [List.lookup, hb2, ih]

/-- After `on(event, callback)` the callback is last in the array of `event`. -/
theorem listenersOf_onEvent_self (event : String) (callback : Nat) (s : State) :
    listenersOf (onEvent event callback s) event = listenersOf s event ++ [callback] := by
  unfold listenersOf onEvent
  cases h : s.eventListeners.lookup event with
  | none => simp [h, lookup_modifyListeners_self, lookup_append_new]
  | some l => simp [h, lookup_modifyListeners_self]

/-- The call `on(event, callback)` leaves the entries of other events alone. -/
theorem lookup_onEvent_ne (event e : String) (callback : Nat) (s : State) (hne : e ≠ event) :
    (onEvent event callback s).eventListeners.lookup e = s.eventListeners.lookup e := by
  unfold onEvent
  cases h : s.eventListeners.lookup event with
  | none =>
    simp only [h, Option.isSome_none, Bool.false_eq_true, if_false]
    rw [lookup_modifyListeners_ne _ _ _ _ hne, lookup_append_new]
    cases s.eventListeners.lookup e <;> simp [hne]
  | some l =>
    simp only [h, Option.isSome_some, if_true]
    exact lookup_modifyListeners_ne _ _ _ _ hne

/-- Registering a callback invokes nothing. -/
theorem onEvent_invoked (event : String) (callback : Nat) (s : State) :
    (onEvent event callback s).invoked = s.invoked := by
  unfold onEvent
  split <;> rfl

/-- Registering the same callback `k` times appends it `k` times. -/
theorem iterate_onEvent (event : String) (callback : Nat) (k : Nat) (s : State) :
    listenersOf ((onEvent event callback)^[k] s) event =
        listenersOf s event ++ List.replicate k callback ∧
      ((onEvent event callback)^[k] s).invoked = s.invoked := by
  induction k generalizing s with
  | zero => simp
  | succ k ih =>
    rw [Function.iterate_succ_apply]
    obtain ⟨h1, h2⟩ := ih (onEvent event callback s)
    rw [h1, h2, listenersOf_onEvent_self, onEvent_invoked, List.replicate_succ]
    simp

/-- The invocations that `emit` adds, in terms of `listenersOf`. -/
theorem emit_invoked (event : String) (data : Payload) (s : State) :
    (emit event data s).invoked =
      s.invoked ++ (listenersOf s event).map (fun cb => (cb, data)) := by
  rw [emit_eq]; rfl

/-- With callbacks that leave the composable alone, the loop of `emit` visits
every index up to the end of the array, whatever the callbacks throw. -/
theorem forEach_inert (throws : Nat → Payload → Bool) (event : String) (data : Payload)
    (l : List Nat) :
    ∀ (remaining k : Nat) (s : State), listenersOf s event = l → l.length = k + remaining →
      forEach event (fun callback => tryCatch (callCallback (inert throws) callback data))
          remaining k s =
        ({ s with invoked := s.invoked ++ (l.drop k).map (fun cb => (cb, data)) }, false) := by
  intro remaining
  induction remaining with
  | zero =>
    intro k s _ h
    have hk : l.drop k = [] := List.drop_eq_nil_of_le (by omega)
    simp [forEach, hk]
  | succ n ih =>
    intro k s hl h
    have hlt : k < l.length := by omega
    have hget : l[k]? = some (l[k]) := List.getElem?_eq_getElem hlt
    have hdrop : l.drop k = l[k] :: l.drop (k + 1) := List.drop_eq_getElem_cons hlt
    have hrest := ih (k + 1) { s with invoked := s.invoked ++ [(l[k], data)] } hl (by omega)
    simp only [forEach, hl, hget, tryCatch, callCallback, inert]
    rw [hrest, hdrop]
    simp only [List.map_cons, List.append_assoc, List.singleton_append]

/-- Occurrences of a callback among the invocations and in the array. -/
theorem count_map_pair (data : Payload) (cb : Nat) (l : List Nat) :
    (l.map (fun c => (c, data))).count (cb, data) = l.count cb := by
  induction l with
  | nil => rfl
  | cons x rest ih => simp [List.count_cons, ih]

/-- With callbacks that leave the composable alone, `emit` (statement by
statement, `emitLoop`) leaves no exception behind and invokes the callbacks of the
event in registration order, each once per registration, all with the same
payload, whatever they throw. -/
theorem emitLoop_inert (throws : Nat → Payload → Bool) (event : String) (data : Payload)
    (s : State) :
    emitLoop (inert throws) event data s = (emit event data s, false) ∧
    (emit event data s).invoked =
      s.invoked ++ (listenersOf s event).map (fun cb => (cb, data)) ∧
    (∀ cb, ((listenersOf s event).map (fun c => (c, data))).count (cb, data) =
      (listenersOf s event).count cb) := by
  refine ⟨?_, emit_invoked _ _ _, fun cb => count_map_pair data cb _⟩
  unfold emitLoop emit
  cases h : s.eventListeners.lookup event with
  | none => rfl
  | some l =>
    have hl : listenersOf s event = l := by simp [listenersOf, h]
    have := forEach_inert throws event data l l.length 0 s hl (by omega)
    simp only [this, List.drop_zero]

/-- C13 (evaluation at the failing input): with subscribers 1, 2, 3 of the event
`x`, where callback 1 calls `off` for itself when invoked and nothing throws,
`emit` invokes 1 and 3 only: the `splice` of `off` shifts 2 to the index that
`forEach` has already passed.  Callback 2 is still registered afterwards.  With
callbacks that only throw (2 throws), all three are invoked. -/
theorem self_unsubscribe_skips_next :
    listenersOf threeSubscribers "x" = [1, 2, 3] ∧
    (emitLoop selfRemoving "x" .undefined threeSubscribers).1.invoked =
      [(1, .undefined), (3, .undefined)] ∧
    (emitLoop selfRemoving "x" .undefined threeSubscribers).2 = false ∧
    listenersOf (emitLoop selfRemoving "x" .undefined threeSubscribers).1 "x" = [2, 3] ∧
    (emitLoop (inert (fun cb _ => cb == 2)) "x" .undefined threeSubscribers).1.invoked =
      [(1, .undefined), (2, .undefined), (3, .undefined)] := by
  decide

/-- C14: after `on(event, callback)` the array of `event` is the previous one
(empty if absent) with `callback` appended, the entries of all other events are
unchanged, and nothing is deduplicated: after `k` registrations of the same
callback the array ends in `k` copies and a later `emit` invokes it `k` times
more than before. -/
theorem onEvent_appends (event : String) (callback : Nat) (s : State) :
    listenersOf (onEvent event callback s) event = listenersOf s event ++ [callback] ∧
    (∀ e, e ≠ event →
      (onEvent event callback s).eventListeners.lookup e = s.eventListeners.lookup e) ∧
    (∀ k, listenersOf ((onEvent event callback)^[k] s) event =
      listenersOf s event ++ List.replicate k callback) ∧
    (∀ (k : Nat) (data : Payload),
      (emit event data ((onEvent event callback)^[k] s)).invoked =
        s.invoked ++ (listenersOf s event ++ List.replicate k callback).map
          (fun cb => (cb, data))) ∧
    (∀ (k : Nat) (data : Payload),
      ((listenersOf ((onEvent event callback)^[k] s) event).map (fun cb => (cb, data))).count
          (callback, data) = (listenersOf s event).count callback + k) := by
  refine ⟨listenersOf_onEvent_self _ _ _, fun e he => lookup_onEvent_ne _ _ _ _ he,
    fun k => (iterate_onEvent _ _ k s).1, ?_, ?_⟩
  · intro k data
    rw [emit_invoked, (iterate_onEvent _ _ k s).1, (iterate_onEvent _ _ k s).2]
  · intro k data
    rw [count_map_pair, (iterate_onEvent _ _ k s).1, List.count_append, List.count_replicate_self]

/-- For a registered callback `indexOf` is the first index. -/
theorem indexOf_of_mem (l : List Nat) (cb : Nat) (h : cb ∈ l) :
    indexOf l cb > -1 ∧ (indexOf l cb).toNat = List.indexOf cb l := by
  unfold indexOf
  rw [if_pos h]
  constructor
  · omega
  · simp

/-- For a callback that is not registered `indexOf` is `-1`. -/
theorem indexOf_of_not_mem (l : List Nat) (cb : Nat) (h : cb ∉ l) : ¬ indexOf l cb > -1 := by
  unfold indexOf
  rw [if_neg h]
  omega

/-- The call `off` on a registered callback erases its first occurrence. -/
theorem off_of_mem (event : String) (callback : Nat) (s : State) (l : List Nat)
    (hl : s.eventListeners.lookup event = some l) (hm : callback ∈ l) :
    listenersOf (off event callback s) event = l.erase callback ∧
    (∀ e, e ≠ event →
      (off event callback s).eventListeners.lookup e = s.eventListeners.lookup e) := by
  obtain ⟨h1, h2⟩ := indexOf_of_mem l callback hm
  have h3 : off event callback s =
      { s with eventListeners := (modifyListeners event
          (fun l1 => l1.eraseIdx (List.indexOf callback l)) s.eventListeners) } := by
    simp only [off, hl, h1, h2, if_true]
  rw [h3]
  constructor
  · simp [listenersOf, lookup_modifyListeners_self, hl]
  · intro e he
    exact lookup_modifyListeners_ne _ _ _ _ he

/-- The call `off` on a callback that is not registered changes nothing. -/
theorem off_of_not_mem (event : String) (callback : Nat) (s : State)
    (h : callback ∉ listenersOf s event) : off event callback s = s := by
  unfold off
  cases hl : s.eventListeners.lookup event with
  | none => rfl
  | some l =>
    have hm : callback ∉ l := by simpa [listenersOf, hl] using h
    simp only [indexOf_of_not_mem l callback hm, if_false]

/-- C15: if `callback` occurs in the array of `event`, `off(event, callback)`
removes exactly its first occurrence and keeps the other entries in order; the
entries of other events are untouched; if `event` has no array or `callback` does
not occur in it, the state is unchanged; and `on` followed by `off` for a callback
not registered before restores the array of `event`. -/
theorem off_removes_first (event : String) (callback : Nat) (s : State) :
    (∀ l, s.eventListeners.lookup event = some l → callback ∈ l →
      listenersOf (off event callback s) event = l.erase callback ∧
      ∃ l1 l2, l = l1 ++ callback :: l2 ∧ callback ∉ l1 ∧
        listenersOf (off event callback s) event = l1 ++ l2) ∧
    (∀ e, e ≠ event →
      (off event callback s).eventListeners.lookup e = s.eventListeners.lookup e) ∧
    (s.eventListeners.lookup event = none → off event callback s = s) ∧
    (∀ l, s.eventListeners.lookup event = some l → callback ∉ l → off event callback s = s) ∧
    (callback ∉ listenersOf s event →
      listenersOf (off event callback (onEvent event callback s)) event =
        listenersOf s event) := by
  refine ⟨?_, ?_, ?_, ?_, ?_⟩
  · intro l hl hm
    obtain ⟨h1, -⟩ := off_of_mem event callback s l hl hm
    refine ⟨h1, ?_⟩
    obtain ⟨l1, l2, hn, hsplit, herase⟩ := List.exists_erase_eq hm
    exact ⟨l1, l2, hsplit, hn, by rw [h1, herase]⟩
  · intro e he
    by_cases hm : callback ∈ listenersOf s event
    · cases hl : s.eventListeners.lookup event with
      | none => simp [listenersOf, hl] at hm
      | some l =>
        have hm1 : callback ∈ l := by simpa [listenersOf, hl] using hm
        exact (off_of_mem event callback s l hl hm1).2 e he
    · rw [off_of_not_mem event callback s hm]
  · intro hl
    exact off_of_not_mem event callback s (by simp [listenersOf, hl])
  · intro l hl hm
    exact off_of_not_mem event callback s (by simpa [listenersOf, hl] using hm)
  · intro hn
    have hself := listenersOf_onEvent_self event callback s
    cases hl : (onEvent event callback s).eventListeners.lookup event with
    | none => simp [listenersOf, hl] at hself
    | some l =>
      have hl1 : l = listenersOf s event ++ [callback] := by
        simpa [listenersOf, hl] using hself
      have hm : callback ∈ l := by rw [hl1]; simp
      rw [(off_of_mem event callback _ l hl hm).1, hl1, List.erase_append_right _ hn]
      simp

/-- The chat `startHeartbeat` arms a fresh interval and tracks it. -/
theorem startHeartbeat_chat (s : State) :
    (startHeartbeat .chat s).heartbeatTimer = some s.nextTimer ∧
    s.nextTimer ∈ (startHeartbeat .chat s).intervals := by
  simp [startHeartbeat, stopHeartbeat_eq]

/-- What the handler `onopen` leaves in the flags, the heartbeat and the invocations. -/
theorem onopen_fields (v : Variant) (userId : Nat) (s : State) :
    (onopen v userId s).connected = true ∧ (onopen v userId s).connecting = false ∧
    (onopen v userId s).heartbeatTimer = (startHeartbeat v s).heartbeatTimer ∧
    (onopen v userId s).intervals = (startHeartbeat v s).intervals ∧
    (onopen v userId s).invoked =
      s.invoked ++ (listenersOf s "connected").map (fun cb => (cb, Payload.connected userId)) := by
  cases v <;>
    simp [onopen, emit_eq, startHeartbeat, stopHeartbeat_eq, requestUnreadCount,
      loadNotifications, apply_ite, listenersOf]

/-- C11: whenever the open event of a socket fires, afterwards `connected` is
true, `connecting` is false, the reconnect counter is 0, `startHeartbeat` has run
(in the chat manager a fresh interval is armed and tracked), and every
`connected` subscriber was invoked once per registration with the id of the user
that the socket was opened for, which is the `user.id` that `connect()` read. -/
theorem onopen_post_state (v : Variant) (i : Nat) (s s1 : State)
    (h : step v (.sockOpen i) s = some s1) :
    ∃ sk, s.sockets[i]? = some sk ∧ sk.readyState = .CONNECTING ∧
      s1.connected = true ∧ s1.connecting = false ∧ s1.reconnectAttempts = 0 ∧
      s1.heartbeatTimer = (startHeartbeat v s).heartbeatTimer ∧
      s1.intervals = (startHeartbeat v s).intervals ∧
      (v = .chat → s1.heartbeatTimer = some s.nextTimer ∧ s.nextTimer ∈ s1.intervals) ∧
      s1.invoked =
        s.invoked ++ (listenersOf s "connected").map (fun cb => (cb, Payload.connected sk.userId)) ∧
      (∀ user, s.user = some user → s.ws = none → s.connecting = false →
        tokenPresent s.token = true →
        (connect false s).sockets =
          s.sockets ++ [{ readyState := .CONNECTING, userId := user.id }]) := by
  simp only [step] at h
  cases hsk : s.sockets[i]? with
  | none => rw [hsk] at h; cases h
  | some sk =>
    rw [hsk] at h
    simp only at h
    split at h
    · rename_i hr
      simp only [Option.some.injEq] at h
      subst h
      obtain ⟨h1, h2, h3, h4, h5⟩ := onopen_fields v sk.userId
        { s with sockets := s.sockets.set i { sk with readyState := .OPEN } }
      refine ⟨sk, rfl, hr, h1, h2, onopen_reconnectAttempts _ _ _, ?_, ?_, ?_, ?_, ?_⟩
      · rw [h3]; cases v <;> simp [startHeartbeat, stopHeartbeat_eq]
      · rw [h4]; cases v <;> simp [startHeartbeat, stopHeartbeat_eq]
      · intro hv
        subst hv
        rw [h3, h4]
        simp [startHeartbeat, stopHeartbeat_eq]
      · rw [h5]; rfl
      · intro user hu hw hc ht
        simp [connect, hu, hw, hc, ht]
    · cases h

/-- C11 (witness): socket 0 of user 7 opens with one `connected` subscriber. -/
theorem onopen_post_state_witness :
    ∃ s1, step .chat (.sockOpen 0) (onEvent "connected" 5 firstAttempt) = some s1 ∧
      s1.connected = true ∧ s1.invoked = [(5, Payload.connected 7)] := by
  obtain ⟨sk, hsk, -, h1, -, -, -, -, -, h2, -⟩ :=
    onopen_post_state .chat 0 (onEvent "connected" 5 firstAttempt) _ rfl
  refine ⟨_, rfl, h1, ?_⟩
  rw [h2]
  have : sk = { readyState := .CONNECTING, userId := 7 } := by
    have h0 : (onEvent "connected" 5 firstAttempt).sockets[0]? =
        some { readyState := .CONNECTING, userId := 7 } := by decide
    rw [h0] at hsk
    exact (Option.some.inj hsk).symm
  subst this
  decide

/-- C12: for every close event with code `code` and reason `reason`, afterwards
`connected` and `connecting` are false, the socket reference is `null`, the
heartbeat is stopped (its handle is `null` and its interval cleared), and every
`disconnected` subscriber was invoked once per registration with that code and
reason, whether or not a reconnect is scheduled. -/
theorem onclose_post_state (v : Variant) (code : Nat) (reason : String) (s : State) :
    (onclose v code reason s).connected = false ∧
    (onclose v code reason s).connecting = false ∧
    (onclose v code reason s).ws = none ∧
    (onclose v code reason s).heartbeatTimer = none ∧
    (onclose v code reason s).intervals = (stopHeartbeat s).intervals ∧
    (∀ h, s.heartbeatTimer = some h → h ∉ (onclose v code reason s).intervals) ∧
    (onclose v code reason s).invoked =
      s.invoked ++ (listenersOf s "disconnected").map
        (fun cb => (cb, Payload.disconnected code reason)) := by
  by_cases hc : code ≠ 1000 ∧ s.reconnectAttempts < config.maxReconnectAttempts
  · obtain ⟨h1, h2⟩ := hc
    cases v <;> cases hh : s.heartbeatTimer <;>
      simp [onclose, emit_eq, stopHeartbeat_eq, scheduleReconnect, h1, h2, listenersOf, hh]
  · cases v <;> cases hh : s.heartbeatTimer <;>
      simp [onclose, emit_eq, stopHeartbeat_eq, scheduleReconnect, hc, listenersOf, hh]

/-- The handler `handleOnlineStatus` is one presence update followed by one `emit`. -/
theorem handleOnlineStatus_eq (data : Frame) (s : State) :
    handleOnlineStatus data s =
      emit "online_status" (.frame data)
        { s with onlineUsers := (handleOnlineStatus data s).onlineUsers } := by
  unfold handleOnlineStatus
  cases data.is_online <;> simp [emit_eq]

/-- C16: for a frame whose type is `message`, `group_message`, `typing`, `read`
or `error`, `handleIncomingMessage` is exactly one `emit` of the event named by the
type with the whole frame as payload; for `online_status` it is the presence
update followed by exactly one such `emit`; for `pong`, an unknown or a missing
type it returns the state unchanged. -/
theorem handleIncomingMessage_dispatch (data : Frame) (s : State) :
    (∀ t ∈ ["message", "group_message", "typing", "read", "error"], data.type = some t →
      handleIncomingMessage data s = emit t (.frame data) s) ∧
    (data.type = some "online_status" →
      handleIncomingMessage data s =
        emit "online_status" (.frame data)
          { s with onlineUsers := (handleOnlineStatus data s).onlineUsers }) ∧
    (∀ t ∈ ["message", "group_message", "typing", "read", "error", "online_status"],
      data.type = some t →
      (handleIncomingMessage data s).invoked =
        s.invoked ++ (listenersOf s t).map (fun cb => (cb, Payload.frame data))) ∧
    ((∀ t ∈ ["message", "group_message", "typing", "read", "error", "online_status"],
        data.type ≠ some t) →
      handleIncomingMessage data s = s) := by
  have hA : ∀ t ∈ ["message", "group_message", "typing", "read", "error"],
      data.type = some t → handleIncomingMessage data s = emit t (.frame data) s := by
    intro t ht h
    simp only [List.mem_cons, List.mem_singleton, List.not_mem_nil, or_false] at ht
    rcases ht with rfl | rfl | rfl | rfl | rfl <;> simp [handleIncomingMessage, h]
  have hB : data.type = some "online_status" →
      handleIncomingMessage data s =
        emit "online_status" (.frame data)
          { s with onlineUsers := (handleOnlineStatus data s).onlineUsers } := by
    intro h
    rw [← handleOnlineStatus_eq]
    simp [handleIncomingMessage, h]
  refine ⟨hA, hB, ?_, ?_⟩
  · intro t ht h
    simp only [List.mem_cons, List.mem_singleton, List.not_mem_nil, or_false] at ht
    rcases ht with rfl | rfl | rfl | rfl | rfl | rfl
    · rw [hA _ (by simp) h, emit_invoked]
    · rw [hA _ (by simp) h, emit_invoked]
    · rw [hA _ (by simp) h, emit_invoked]
    · rw [hA _ (by simp) h, emit_invoked]
    · rw [hA _ (by simp) h, emit_invoked]
    · rw [hB h, emit_invoked]; rfl
  · intro h
    have h1 := h "message" (by simp)
    have h2 := h "group_message" (by simp)
    have h3 := h "typing" (by simp)
    have h4 := h "read" (by simp)
    have h5 := h "error" (by simp)
    have h6 := h "online_status" (by simp)
    unfold handleIncomingMessage
    split <;> first | rfl | contradiction

/-- Membership in the presence set after `handleOnlineStatus`. -/
theorem handleOnlineStatus_onlineUsers (data : Frame) (s : State) (x : Nat) :
    x ∈ (handleOnlineStatus data s).onlineUsers ↔
      if data.is_online then x ∈ s.onlineUsers ∨ x = data.user_id
      else x ∈ s.onlineUsers ∧ x ≠ data.user_id := by
  unfold handleOnlineStatus
  cases hd : data.is_online
  · simp [emit_eq]
  · by_cases hc : data.user_id ∈ s.onlineUsers
    · simp [emit_eq, hc]
      intro hx; subst hx; exact hc
    · simp [emit_eq, hc]

/-- C17: an `online_status` frame with `is_online` true turns the presence set
`S` into `S` with `u` added, one with `is_online` false into `S` without `u`, membership of every
other id being unchanged; a frame for user 42 with `is_online` true followed by
one with `is_online` false leaves 42 present after the first and absent after the
second. -/
theorem presence_set_update (data : Frame) (s : State) :
    (data.is_online = true → ∀ x,
      (x ∈ (handleOnlineStatus data s).onlineUsers ↔ x ∈ s.onlineUsers ∨ x = data.user_id)) ∧
    (data.is_online = false → ∀ x,
      (x ∈ (handleOnlineStatus data s).onlineUsers ↔ x ∈ s.onlineUsers ∧ x ≠ data.user_id)) ∧
    (∀ body1 body2,
      42 ∈ (handleIncomingMessage
          { type := some "online_status", user_id := 42, is_online := true, error := "",
            body := body1 } s).onlineUsers ∧
      42 ∉ (handleIncomingMessage
          { type := some "online_status", user_id := 42, is_online := false, error := "",
            body := body2 }
          (handleIncomingMessage
            { type := some "online_status", user_id := 42, is_online := true, error := "",
              body := body1 } s)).onlineUsers) := by
  refine ⟨?_, ?_, ?_⟩
  · intro h x
    rw [handleOnlineStatus_onlineUsers, if_pos h]
  · intro h x
    rw [handleOnlineStatus_onlineUsers, h]
    simp
  · intro body1 body2
    constructor
    · simp [handleIncomingMessage, handleOnlineStatus_onlineUsers]
    · simp [handleIncomingMessage, handleOnlineStatus_onlineUsers]

/-- C18: after a frame of type `notification` carrying `n`, the list is `n`
followed by the previous list, the unread count is one more when `n` is unread
and unchanged when `n` is read, and every `notification` subscriber was invoked
once per registration with payload `n`. -/
theorem new_notification_frame (permission : DesktopPermission) (n : Notification) (s : State) :
    (handleIncomingNotification permission
      { type := some "notification", notification := n } s).notifications =
        n :: s.notifications ∧
    (handleIncomingNotification permission
      { type := some "notification", notification := n } s).unreadCount =
        (if n.is_read then s.unreadCount else s.unreadCount + 1) ∧
    (handleIncomingNotification permission
      { type := some "notification", notification := n } s).invoked =
        s.invoked ++ (listenersOf s "notification").map
          (fun cb => (cb, Payload.notification n)) := by
  cases permission <;> cases hr : n.is_read <;>
    simp [handleIncomingNotification, handleNewNotification, showBrowserNotification, emit_eq,
      listenersOf, hr]

/-- The position found by `find` holds a record with the id, and no earlier one does. -/
theorem findNotification_first (i : Nat) (l : List Notification) :
    ∀ k, findNotification i l = some k →
      (∃ n, l[k]? = some n ∧ n.id = i) ∧ ∀ j m, j < k → l[j]? = some m → m.id ≠ i := by
  induction l with
  | nil => intro k h; simp [findNotification] at h
  | cons a rest ih =>
    intro k h
    by_cases ha : a.id = i
    · simp [findNotification, ha] at h
      subst h
      exact ⟨⟨a, by simp, ha⟩, fun j m hj => absurd hj (Nat.not_lt_zero j)⟩
    · simp only [findNotification, ha, if_false, Option.map_eq_some'] at h
      obtain ⟨k1, hk1, rfl⟩ := h
      obtain ⟨⟨n, hn, hid⟩, hfirst⟩ := ih k1 hk1
      refine ⟨⟨n, by simpa using hn, hid⟩, ?_⟩
      intro j m hj hm
      cases j with
      | zero =>
        simp at hm
        subst hm
        exact ha
      | succ j1 =>
        simp at hm
        exact hfirst j1 m (by omega) hm

/-- The assignment changes the flag of the record at the position. -/
theorem setIsRead_getElem?_self (r : Bool) (l : List Notification) :
    ∀ k n, l[k]? = some n → (setIsRead r k l)[k]? = some { n with is_read := r } := by
  induction l with
  | nil => intro k n h; simp at h
  | cons a rest ih =>
    intro k n h
    cases k with
    | zero =>
      simp at h
      subst h
      simp [setIsRead]
    | succ k1 =>
      simp at h
      simpa [setIsRead] using ih k1 n h

/-- The assignment leaves every other record alone. -/
theorem setIsRead_getElem?_ne (r : Bool) (l : List Notification) :
    ∀ k j, j ≠ k → (setIsRead r k l)[j]? = l[j]? := by
  induction l with
  | nil => intro k j _; cases k <;> simp [setIsRead]
  | cons a rest ih =>
    intro k j hjk
    cases k with
    | zero =>
      cases j with
      | zero => exact absurd rfl hjk
      | succ j1 => simp [setIsRead]
    | succ k1 =>
      cases j with
      | zero => simp [setIsRead]
      | succ j1 =>
        simpa [setIsRead] using ih k1 j1 (by omega)

/-- The assignment keeps the length of the list. -/
theorem setIsRead_length (r : Bool) (l : List Notification) :
    ∀ k, (setIsRead r k l).length = l.length := by
  induction l with
  | nil => intro k; cases k <;> simp [setIsRead]
  | cons a rest ih =>
    intro k
    cases k with
    | zero => simp [setIsRead]
    | succ k1 => simp [setIsRead, ih k1]

/-- Clearing the flag of an unread record after setting it restores the list. -/
theorem setIsRead_undo (l : List Notification) :
    ∀ k n, l[k]? = some n → n.is_read = false →
      setIsRead false k (setIsRead true k l) = l := by
  induction l with
  | nil => intro k n h; simp at h
  | cons a rest ih =>
    intro k n h hr
    cases k with
    | zero =>
      simp at h
      subst h
      cases a
      simp_all [setIsRead]
    | succ k1 =>
      simp at h
      simp [setIsRead, ih k1 n h hr]

/-- The optimistic update of `markAsRead` on an unread record. -/
theorem markAsRead_state (i k : Nat) (n : Notification) (s : State)
    (hk : findNotification i s.notifications = some k) (hn : s.notifications[k]? = some n)
    (hu : n.is_read = false) :
    (markAsRead i s).1.notifications = setIsRead true k s.notifications ∧
    (markAsRead i s).1.unreadCount = max 0 (s.unreadCount - 1) := by
  cases ht : tokenPresent s.token <;> simp [markAsRead, hk, hn, hu, ht]

/-- C19 (counterexample): in `staleCountState` the first record with id 7 is
unread and the unread count is 0; after `markAsRead(7)` the count is 0, not one
less than before. -/
theorem stale_count_markAsRead :
    findNotification 7 staleCountState.notifications = some 0 ∧
    staleCountState.notifications[0]? = some note7 ∧
    note7.is_read = false ∧
    staleCountState.unreadCount = 0 ∧
    (markAsRead 7 staleCountState).1.unreadCount = 0 ∧
    (markAsRead 7 staleCountState).1.unreadCount ≠ staleCountState.unreadCount - 1 := by
  decide

/-- C19 (amended): when the first record with id `i` is unread, right after
`markAsRead(i)` that record is read, every other record is unchanged, and the
unread count is `max(0, c - 1)`: exactly one less than before whenever it was at
least 1. -/
theorem markAsRead_optimistic (i k : Nat) (n : Notification) (s : State)
    (hk : findNotification i s.notifications = some k) (hn : s.notifications[k]? = some n)
    (hu : n.is_read = false) :
    (markAsRead i s).1.notifications[k]? = some { n with is_read := true } ∧
    (∀ j, j ≠ k → (markAsRead i s).1.notifications[j]? = s.notifications[j]?) ∧
    (markAsRead i s).1.notifications.length = s.notifications.length ∧
    (markAsRead i s).1.unreadCount = max 0 (s.unreadCount - 1) ∧
    (1 ≤ s.unreadCount → (markAsRead i s).1.unreadCount = s.unreadCount - 1) := by
  obtain ⟨h1, h2⟩ := markAsRead_state i k n s hk hn hu
  rw [h1, h2]
  refine ⟨setIsRead_getElem?_self _ _ _ _ hn, fun j hj => setIsRead_getElem?_ne _ _ _ _ hj,
    setIsRead_length _ _ _, rfl, ?_⟩
  intro hc
  omega

/-- C19 (witness): one unread record with id 7 and unread count 1. -/
theorem markAsRead_optimistic_witness :
    (markAsRead 7 { loggedIn with notifications := [note7], unreadCount := 1 }).1.notifications[0]?
      = some { note7 with is_read := true } ∧
    (markAsRead 7 { loggedIn with notifications := [note7], unreadCount := 1 }).1.unreadCount
      = 0 := by
  obtain ⟨h1, -, -, h2, -⟩ := markAsRead_optimistic 7 0 note7
    { loggedIn with notifications := [note7], unreadCount := 1 } (by decide) (by decide)
    (by decide)
  exact ⟨h1, h2⟩

/-- When the unread count was at least 1, a failed `markAsRead` of an unread
record restores list and count. -/
theorem markAsRead_rollback_of_pos (i k : Nat) (n : Notification) (s : State)
    (hk : findNotification i s.notifications = some k) (hn : s.notifications[k]? = some n)
    (hu : n.is_read = false) (hc : 1 ≤ s.unreadCount) :
    (markAsReadFailed (findNotification i s.notifications) (markAsRead i s).1).notifications =
      s.notifications ∧
    (markAsReadFailed (findNotification i s.notifications) (markAsRead i s).1).unreadCount =
      s.unreadCount := by
  obtain ⟨h1, h2⟩ := markAsRead_state i k n s hk hn hu
  simp only [markAsReadFailed, hk, h1, h2, setIsRead_undo _ _ _ hn hu]
  constructor
  · trivial
  · omega

/-- C20 (evaluation at the failing input): in `staleCountState` the first
record with id 7 is unread, a token is present and the unread count is 0; after
`markAsRead(7)` and the failure of its request the list is as before but the
unread count is 1. -/
theorem stale_count_rollback :
    findNotification 7 staleCountState.notifications = some 0 ∧
    staleCountState.notifications[0]? = some note7 ∧
    note7.is_read = false ∧
    tokenPresent staleCountState.token = true ∧
    staleCountState.unreadCount = 0 ∧
    (markAsRead 7 staleCountState).2 = true ∧
    (markAsReadFailed (findNotification 7 staleCountState.notifications)
      (markAsRead 7 staleCountState).1).notifications = staleCountState.notifications ∧
    (markAsReadFailed (findNotification 7 staleCountState.notifications)
      (markAsRead 7 staleCountState).1).unreadCount = 1 := by
  decide

/-! ## Rollbacks, sending, heartbeat, throttle, avatars and the session store -/

/-- C21 (evaluation at the failing input): in `readRecordState` the record with
id 7 is already read and the unread count is 0; `markAsRead(7)` changes neither,
and when its request fails the record is unread and the unread count is 1.  For
an id without a record (8) the failure changes nothing. -/
theorem read_record_rollback_marks_unread :
    findNotification 7 readRecordState.notifications = some 0 ∧
    tokenPresent readRecordState.token = true ∧
    (markAsRead 7 readRecordState).2 = true ∧
    (markAsRead 7 readRecordState).1.notifications = readRecordState.notifications ∧
    (markAsRead 7 readRecordState).1.unreadCount = readRecordState.unreadCount ∧
    readRecordState.notifications = [{ note7 with is_read := true }] ∧
    readRecordState.unreadCount = 0 ∧
    (markAsReadFailed (findNotification 7 readRecordState.notifications)
      (markAsRead 7 readRecordState).1).notifications = [note7] ∧
    (markAsReadFailed (findNotification 7 readRecordState.notifications)
      (markAsRead 7 readRecordState).1).unreadCount = 1 ∧
    (markAsReadFailed (findNotification 8 readRecordState.notifications)
      (markAsRead 8 readRecordState).1).notifications = readRecordState.notifications := by
  decide

/-- Inserting the removed record at its old position restores the list. -/
theorem eraseIdx_reinsert (l : List Notification) :
    ∀ k n, l[k]? = some n → (l.eraseIdx k).take k ++ n :: (l.eraseIdx k).drop k = l := by
  induction l with
  | nil => intro k n h; simp at h
  | cons a rest ih =>
    intro k n h
    cases k with
    | zero =>
      simp at h
      subst h
      simp
    | succ k1 =>
      simp at h
      simpa using ih k1 n h

/-- The optimistic removal of `deleteNotification` when a record has the id. -/
theorem deleteNotification_state (i k : Nat) (n : Notification) (s : State)
    (hk : findNotification i s.notifications = some k) (hn : s.notifications[k]? = some n) :
    (deleteNotification i s).1.notifications = s.notifications.eraseIdx k ∧
    (deleteNotification i s).1.unreadCount =
      (if n.is_read then s.unreadCount else max 0 (s.unreadCount - 1)) ∧
    deleteNotificationCaptured i s = some (k, n) := by
  cases ht : tokenPresent s.token <;> cases hr : n.is_read <;>
    simp [deleteNotification, deleteNotificationCaptured, hk, hn, ht, hr, emit_eq]

/-- Without a record of that id `deleteNotification` changes neither list nor count. -/
theorem deleteNotification_absent (i : Nat) (s : State)
    (hk : findNotification i s.notifications = none) :
    (deleteNotification i s).1.notifications = s.notifications ∧
    (deleteNotification i s).1.unreadCount = s.unreadCount ∧
    deleteNotificationCaptured i s = none := by
  cases ht : tokenPresent s.token <;>
    simp [deleteNotification, deleteNotificationCaptured, hk, ht, emit_eq]

/-- The value returned by `deleteNotification`, and what it leaves alone without a token. -/
theorem deleteNotification_result (i : Nat) (s : State) :
    (deleteNotification i s).2 = tokenPresent s.token ∧
    (tokenPresent s.token = false → (deleteNotification i s).1.requests = s.requests ∧
      (deleteNotification i s).1.invoked = s.invoked) := by
  have hs : ∀ s1 : State, s1.token = s.token → s1.requests = s.requests →
      s1.invoked = s.invoked →
      (if (!tokenPresent s1.token) = true then (s1, false)
        else (emit "notification_deleted" (.id i)
          { s1 with requests := s1.requests ++ [.delete i] }, true)).2 = tokenPresent s.token ∧
      (tokenPresent s.token = false →
        (if (!tokenPresent s1.token) = true then (s1, false)
          else (emit "notification_deleted" (.id i)
            { s1 with requests := s1.requests ++ [.delete i] }, true)).1.requests = s.requests ∧
        (if (!tokenPresent s1.token) = true then (s1, false)
          else (emit "notification_deleted" (.id i)
            { s1 with requests := s1.requests ++ [.delete i] }, true)).1.invoked = s.invoked) := by
    intro s1 h1 h2 h3
    rw [h1]
    cases ht : tokenPresent s.token <;> simp [h2, h3]
  unfold deleteNotification
  apply hs
  · repeat (first | rfl | split)
  · repeat (first | rfl | split)
  · repeat (first | rfl | split)

/-- C22 (counterexample): in `staleCountState` the first record with id 7 is
unread, a token is present and the unread count is 0; `deleteNotification(7)`
removes the record and leaves the count at 0, and after the failure of its
request the list is as before but the unread count is 1. -/
theorem stale_count_delete :
    findNotification 7 staleCountState.notifications = some 0 ∧
    staleCountState.notifications = [note7] ∧
    note7.is_read = false ∧
    tokenPresent staleCountState.token = true ∧
    staleCountState.unreadCount = 0 ∧
    (deleteNotification 7 staleCountState).1.notifications = [] ∧
    (deleteNotification 7 staleCountState).1.unreadCount = 0 ∧
    (deleteNotificationFailed (deleteNotificationCaptured 7 staleCountState)
      (deleteNotification 7 staleCountState).1).notifications = [note7] ∧
    (deleteNotificationFailed (deleteNotificationCaptured 7 staleCountState)
      (deleteNotification 7 staleCountState).1).unreadCount = 1 := by
  decide

/-- C22 (amended): with a token present, `deleteNotification(i)` returns true
and removes the first record with id `i`, setting the unread count to
`max(0, c - 1)` when the record was unread; if the request then fails with nothing
in between, the list is again exactly the list before the call, and the unread
count is again `c` whenever the record was read or `c` was at least 1.  Without a
record of id `i` nothing changes. -/
theorem deleteNotification_rollback (i : Nat) (s : State) (ht : tokenPresent s.token = true) :
    (deleteNotification i s).2 = true ∧
    (∀ k n, findNotification i s.notifications = some k → s.notifications[k]? = some n →
      (deleteNotification i s).1.notifications = s.notifications.eraseIdx k ∧
      (deleteNotification i s).1.unreadCount =
        (if n.is_read then s.unreadCount else max 0 (s.unreadCount - 1)) ∧
      (deleteNotificationFailed (deleteNotificationCaptured i s)
        (deleteNotification i s).1).notifications = s.notifications ∧
      ((n.is_read = true ∨ 1 ≤ s.unreadCount) →
        (deleteNotificationFailed (deleteNotificationCaptured i s)
          (deleteNotification i s).1).unreadCount = s.unreadCount)) ∧
    (findNotification i s.notifications = none →
      (deleteNotificationFailed (deleteNotificationCaptured i s)
        (deleteNotification i s).1).notifications = s.notifications ∧
      (deleteNotificationFailed (deleteNotificationCaptured i s)
        (deleteNotification i s).1).unreadCount = s.unreadCount) := by
  refine ⟨by rw [(deleteNotification_result i s).1, ht], ?_, ?_⟩
  · intro k n hk hn
    obtain ⟨h1, h2, h3⟩ := deleteNotification_state i k n s hk hn
    refine ⟨h1, h2, ?_, ?_⟩
    · rw [h3]
      cases hr : n.is_read <;>
        simp [deleteNotificationFailed, hr, h1, eraseIdx_reinsert _ _ _ hn]
    · intro hc
      rw [h3]
      cases hr : n.is_read
      · have hc1 : 1 ≤ s.unreadCount := by
          rcases hc with hc | hc
          · rw [hr] at hc; cases hc
          · exact hc
        simp [deleteNotificationFailed, hr, h2]
        omega
      · simp [deleteNotificationFailed, hr, h2]
  · intro hk
    obtain ⟨h1, h2, h3⟩ := deleteNotification_absent i s hk
    rw [h3]
    exact ⟨h1, h2⟩

/-- C22 (witness): one unread record with id 7 and unread count 1. -/
theorem deleteNotification_rollback_witness :
    (deleteNotificationFailed
        (deleteNotificationCaptured 7 { loggedIn with notifications := [note7], unreadCount := 1 })
        (deleteNotification 7
          { loggedIn with notifications := [note7], unreadCount := 1 }).1).notifications
      = [note7] ∧
    (deleteNotificationFailed
        (deleteNotificationCaptured 7 { loggedIn with notifications := [note7], unreadCount := 1 })
        (deleteNotification 7
          { loggedIn with notifications := [note7], unreadCount := 1 }).1).unreadCount = 1 := by
  obtain ⟨-, h, -⟩ := deleteNotification_rollback 7
    { loggedIn with notifications := [note7], unreadCount := 1 } (by decide)
  obtain ⟨-, -, h3, h4⟩ := h 0 note7 (by decide) (by decide)
  exact ⟨h3, h4 (Or.inr (by decide))⟩

/-- C23: `sendMessage` and `sendGroupMessage` return true if and only if a
socket reference is held, `connected` is true and the write does not throw; when
the manager is not connected they return false and leave the state, hence every
socket, untouched; a failed send writes nothing; a successful one writes exactly
one frame to the referenced socket. -/
theorem send_returns_success (sendThrows : Bool) (timestamp : String) (receiverId groupId : Nat)
    (content : String) (imagePath : Option String) (s : State) :
    ((sendMessage sendThrows timestamp receiverId content imagePath s).2 = true ↔
      (s.ws ≠ none ∧ s.connected = true ∧ sendThrows = false)) ∧
    ((sendGroupMessage sendThrows timestamp groupId content s).2 = true ↔
      (s.ws ≠ none ∧ s.connected = true ∧ sendThrows = false)) ∧
    (¬ (s.ws ≠ none ∧ s.connected = true) →
      sendMessage sendThrows timestamp receiverId content imagePath s = (s, false) ∧
      sendGroupMessage sendThrows timestamp groupId content s = (s, false)) ∧
    ((sendMessage sendThrows timestamp receiverId content imagePath s).2 = false →
      (sendMessage sendThrows timestamp receiverId content imagePath s).1 = s) ∧
    ((sendGroupMessage sendThrows timestamp groupId content s).2 = false →
      (sendGroupMessage sendThrows timestamp groupId content s).1 = s) ∧
    (∀ i, s.ws = some i → s.connected = true → sendThrows = false →
      (sendMessage sendThrows timestamp receiverId content imagePath s).1.sent =
        s.sent ++ [(i, .message receiverId content (truthyText imagePath) timestamp)] ∧
      (sendGroupMessage sendThrows timestamp groupId content s).1.sent =
        s.sent ++ [(i, .group_message groupId content timestamp)]) := by
  cases hw : s.ws <;> cases hc : s.connected <;> cases sendThrows <;>
    simp [sendMessage, sendGroupMessage, hw, hc]

/-- C24 (evaluation at the failing input): after `heartbeatOrphanTrace` the
heartbeat interval is armed and `connected` is true although no socket reference
is held, while socket 1 is open; a tick in that state writes no frame. -/
theorem heartbeat_armed_without_socket :
    Option.map State.ws (run .chat heartbeatOrphanTrace init) = some none ∧
    Option.map State.connected (run .chat heartbeatOrphanTrace init) = some true ∧
    Option.map State.heartbeatTimer (run .chat heartbeatOrphanTrace init) = some (some 2) ∧
    Option.map State.intervals (run .chat heartbeatOrphanTrace init) = some [2] ∧
    Option.map live (run .chat heartbeatOrphanTrace init) = some 1 ∧
    Option.map State.sent (run .chat (heartbeatOrphanTrace ++ [.heartbeat false false]) init)
      = some [] := by
  decide

/-- C25 (counterexample): after `connectedTrace` the manager is connected with
user and token present; a heartbeat tick whose ping fails and whose new socket
cannot be constructed leaves it with no socket reference and `connecting` false.
After `leakedConnectedTrace` it is connected as well, and a failing tick leaves
reconnect timer 1 pending. -/
theorem heartbeat_failure_counterexamples :
    Option.map State.connected (run .chat connectedTrace init) = some true ∧
    Option.map State.ws (run .chat connectedTrace init) = some (some 0) ∧
    Option.map State.ws (run .chat (connectedTrace ++ [.heartbeat true true]) init)
      = some none ∧
    Option.map State.connecting (run .chat (connectedTrace ++ [.heartbeat true true]) init)
      = some false ∧
    Option.map live (run .chat (connectedTrace ++ [.heartbeat true true]) init) = some 0 ∧
    Option.map State.connected (run .chat leakedConnectedTrace init) = some true ∧
    Option.map State.ws (run .chat leakedConnectedTrace init) = some (some 2) ∧
    Option.map State.timeouts (run .chat (leakedConnectedTrace ++ [.heartbeat true false]) init)
      = some [(1, 3000)] := by
  decide

/-- The fields that `connect()` right after `disconnect()` inherits from the disconnect. -/
theorem connect_after_disconnect (ctorThrows : Bool) (s : State) :
    (connect ctorThrows (disconnect .chat s)).connected = false ∧
    (connect ctorThrows (disconnect .chat s)).reconnectAttempts = 0 ∧
    (connect ctorThrows (disconnect .chat s)).reconnectTimer = none ∧
    (connect ctorThrows (disconnect .chat s)).timeouts = (disconnect .chat s).timeouts := by
  have h1 : ∀ s1 : State, (connect ctorThrows s1).connected = s1.connected ∧
      (connect ctorThrows s1).reconnectTimer = s1.reconnectTimer ∧
      (connect ctorThrows s1).timeouts = s1.timeouts := by
    intro s1
    unfold connect
    refine ⟨?_, ?_, ?_⟩ <;> repeat (first | rfl | split)
  obtain ⟨ha, hb, hc⟩ := h1 (disconnect .chat s)
  rw [ha, hb, hc, connect_reconnectAttempts, disconnect_reconnectAttempts]
  refine ⟨rfl, rfl, ?_, rfl⟩
  cases hw : s.ws <;> cases hr : s.reconnectTimer <;>
    simp [disconnect, stopHeartbeat_eq, hw, hr]

/-- The chat `disconnect()` cancels the tracked reconnect timer and no other. -/
theorem disconnect_timeouts (s : State) (p : Nat × Nat) :
    p ∈ (disconnect .chat s).timeouts ↔ (p ∈ s.timeouts ∧ some p.1 ≠ s.reconnectTimer) := by
  cases hw : s.ws <;> cases hr : s.reconnectTimer <;>
    simp [disconnect, stopHeartbeat_eq, hw, hr]

/-- C25 (amended): when a heartbeat tick fires with a socket reference held,
`connected` true, user and token present, and the ping write fails, the tick is
`disconnect()` followed by `connect()`: the old socket gets `close(1000)`, the
reconnect counter is 0, `connected` is false, `reconnectTimer` is `null` and its
timer cancelled (so none is pending if no other was); when the constructor does
not throw the state is Connecting with a fresh socket, and when it throws the
manager is left disconnected. -/
theorem heartbeat_failure_reconnects (ctorThrows : Bool) (s : State) (i : Nat) (user : User)
    (hw : s.ws = some i) (hc : s.connected = true) (hu : s.user = some user)
    (ht : tokenPresent s.token = true) :
    heartbeatTick true ctorThrows s = connect ctorThrows (disconnect .chat s) ∧
    (disconnect .chat s).closeCalls = s.closeCalls ++ [(i, 1000, "Client disconnect")] ∧
    (heartbeatTick true ctorThrows s).connected = false ∧
    (heartbeatTick true ctorThrows s).reconnectAttempts = 0 ∧
    (heartbeatTick true ctorThrows s).reconnectTimer = none ∧
    (∀ p, p ∈ (heartbeatTick true ctorThrows s).timeouts ↔
      (p ∈ s.timeouts ∧ some p.1 ≠ s.reconnectTimer)) ∧
    ((∀ p ∈ s.timeouts, some p.1 = s.reconnectTimer) →
      (heartbeatTick true ctorThrows s).timeouts = []) ∧
    (ctorThrows = false →
      (heartbeatTick true ctorThrows s).connecting = true ∧
      (heartbeatTick true ctorThrows s).ws = some s.sockets.length ∧
      (heartbeatTick true ctorThrows s).sockets =
        closeSocket i s.sockets ++ [{ readyState := .CONNECTING, userId := user.id }]) ∧
    (ctorThrows = true →
      (heartbeatTick true ctorThrows s).connecting = false ∧
      (heartbeatTick true ctorThrows s).ws = none ∧
      (heartbeatTick true ctorThrows s).sockets = closeSocket i s.sockets) := by
  have h0 : heartbeatTick true ctorThrows s = connect ctorThrows (disconnect .chat s) := by
    simp [heartbeatTick, hw, hc]
  obtain ⟨h1, h2, h3, h4⟩ := connect_after_disconnect ctorThrows s
  have hmem : ∀ p, p ∈ (heartbeatTick true ctorThrows s).timeouts ↔
      (p ∈ s.timeouts ∧ some p.1 ≠ s.reconnectTimer) := by
    intro p
    rw [h0, h4]
    exact disconnect_timeouts s p
  have hlen : (closeSocket i s.sockets).length = s.sockets.length := by
    unfold closeSocket
    repeat (first | rfl | split | simp)
  rw [h0]
  refine ⟨rfl, ?_, h1, h2, h3, ?_, ?_, ?_, ?_⟩
  · cases hr : s.reconnectTimer <;> simp [disconnect, stopHeartbeat_eq, hw, hr]
  · rw [← h0]; exact hmem
  · intro hall
    rw [← h0]
    apply List.eq_nil_iff_forall_not_mem.mpr
    intro p hp
    obtain ⟨hp1, hp2⟩ := (hmem p).mp hp
    exact hp2 (hall p hp1)
  · intro hct
    subst hct
    cases hr : s.reconnectTimer <;>
      simp [connect, disconnect, stopHeartbeat_eq, hw, hr, hu, ht, hlen]
  · intro hct
    subst hct
    cases hr : s.reconnectTimer <;>
      simp [connect, disconnect, stopHeartbeat_eq, hw, hr, hu, ht]

/-- C25 (witness): the tick fails right after socket 0 of user 7 opened. -/
theorem heartbeat_failure_reconnects_witness :
    run .chat connectedTrace init = some connectedState ∧
    (heartbeatTick true false connectedState).connecting = true ∧
    (heartbeatTick true false connectedState).ws = some 1 ∧
    (heartbeatTick true false connectedState).reconnectAttempts = 0 ∧
    (heartbeatTick true false connectedState).timeouts = [] := by
  obtain ⟨-, -, -, h1, -, -, h2, h3, -⟩ :=
    heartbeat_failure_reconnects false connectedState 0 { id := 7, username := "ann" }
      (by decide) (by decide) (by decide) (by decide)
  exact ⟨by decide, (h3 rfl).1, (h3 rfl).2.1, h1, h2 (by decide)⟩

/-- The invoking times of a run, call by call. -/
theorem invokingTimes_cons {β : Type} (t : Int) (r : Option β) (rest : List (Int × Option β)) :
    invokingTimes ((t, r) :: rest) =
      if r.isSome then t :: invokingTimes rest else invokingTimes rest := by
  cases r <;> simp [invokingTimes]

/-- In every run the invoking times are at least `delay` apart, and at least
`delay` after the initial `lastCall`. -/
theorem throttle_gaps {α β : Type} (func : α → β) (delay : Int) (hd : 0 < delay) :
    ∀ (calls : List (Int × α)) (lastCall : Int),
      List.Pairwise (fun a b => a + delay ≤ b)
          (invokingTimes (throttleRun func delay calls lastCall)) ∧
        ∀ t ∈ invokingTimes (throttleRun func delay calls lastCall), lastCall + delay ≤ t := by
  intro calls
  induction calls with
  | nil => intro lastCall; simp [throttleRun, invokingTimes]
  | cons c rest ih =>
    intro lastCall
    obtain ⟨now, args⟩ := c
    by_cases h : now - lastCall ≥ delay
    · obtain ⟨ih1, ih2⟩ := ih now
      simp only [throttleRun, throttle, h, if_true, invokingTimes_cons, Option.isSome_some]
      refine ⟨List.pairwise_cons.mpr ⟨ih2, ih1⟩, ?_⟩
      intro t ht
      rcases List.mem_cons.mp ht with rfl | ht
      · omega
      · have := ih2 t ht
        omega
    · obtain ⟨ih1, ih2⟩ := ih lastCall
      simp only [throttleRun, throttle, h, if_false, invokingTimes_cons, Option.isSome_none]
      exact ⟨ih1, ih2⟩

/-- The last element of a list with a head, against two defaults. -/
theorem getLast?_cons_getD (a d : Int) (l : List Int) :
    ((a :: l).getLast?).getD d = (l.getLast?).getD a := by
  cases l with
  | nil => rfl
  | cons b rest =>
    rw [List.getLast?_cons_cons, List.getLast?_eq_getLast _ (List.cons_ne_nil b rest)]
    rfl

/-- The closure variable `lastCall` is the time of the last invoking call. -/
theorem throttleLast_eq {α β : Type} (func : α → β) (delay : Int) :
    ∀ (calls : List (Int × α)) (lastCall : Int),
      throttleLast func delay calls lastCall =
        ((invokingTimes (throttleRun func delay calls lastCall)).getLast?).getD lastCall := by
  intro calls
  induction calls with
  | nil => intro lastCall; simp [throttleLast, throttleRun, invokingTimes]
  | cons c rest ih =>
    intro lastCall
    obtain ⟨now, args⟩ := c
    by_cases h : now - lastCall ≥ delay
    · simp only [throttleLast, throttleRun, throttle, h, if_true, invokingTimes_cons,
        Option.isSome_some, getLast?_cons_getD]
      exact ih now
    · simp only [throttleLast, throttleRun, throttle, h, if_false, invokingTimes_cons,
        Option.isSome_none]
      exact ih lastCall

/-- A run followed by one more call. -/
theorem throttleRun_append {α β : Type} (func : α → β) (delay : Int) (now : Int) (args : α) :
    ∀ (calls : List (Int × α)) (lastCall : Int),
      throttleRun func delay (calls ++ [(now, args)]) lastCall =
        throttleRun func delay calls lastCall ++
          [(now, (throttle func delay now args (throttleLast func delay calls lastCall)).2)] := by
  intro calls
  induction calls with
  | nil => intro lastCall; simp [throttleRun, throttleLast]
  | cons c rest ih =>
    intro lastCall
    obtain ⟨t, a⟩ := c
    simp [throttleRun, throttleLast, ih]

/-- C26: for `delay > 0` and every sequence of calls of a throttled function
(with `lastCall` starting at 0), any two calls that invoke `func` are at least
`delay` apart; a call at time `now` invokes `func` on its own arguments and
returns the result if and only if `now` is at least `delay` after the last
invoking call (after 0 when there was none), and otherwise returns `undefined`
and leaves `lastCall` alone. -/
theorem throttle_once_per_interval {α β : Type} (func : α → β) (delay : Int) (hd : 0 < delay)
    (calls : List (Int × α)) :
    List.Pairwise (fun a b => a + delay ≤ b)
      (invokingTimes (throttleRun func delay calls 0)) ∧
    (∀ now args,
      throttleRun func delay (calls ++ [(now, args)]) 0 =
        throttleRun func delay calls 0 ++
          [(now,
            if delay ≤ now - ((invokingTimes (throttleRun func delay calls 0)).getLast?).getD 0
            then some (func args) else none)]) ∧
    (∀ now args lastCall, delay ≤ now - lastCall →
      throttle func delay now args lastCall = (now, some (func args))) ∧
    (∀ now args lastCall, ¬ delay ≤ now - lastCall →
      throttle func delay now args lastCall = (lastCall, none)) := by
  refine ⟨(throttle_gaps func delay hd calls 0).1, ?_, ?_, ?_⟩
  · intro now args
    rw [throttleRun_append, throttleLast_eq]
    by_cases h : delay ≤ now - ((invokingTimes (throttleRun func delay calls 0)).getLast?).getD 0
    · simp [throttle, h]
    · simp [throttle, h]
  · intro now args lastCall h
    simp [throttle, h]
  · intro now args lastCall h
    simp [throttle, h]

/-- C26 (witness): five calls with a delay of 100 ms. -/
theorem throttle_once_per_interval_witness :
    List.Pairwise (fun a b => a + (100 : Int) ≤ b)
      (invokingTimes (throttleRun (fun x : Nat => x + 1) 100
        [(1000, 1), (1050, 2), (1100, 3), (1199, 4), (1200, 5)] 0)) ∧
    throttleRun (fun x : Nat => x + 1) 100
        [(1000, 1), (1050, 2), (1100, 3), (1199, 4), (1200, 5)] 0 =
      [(1000, some 2), (1050, none), (1100, some 4), (1199, none), (1200, some 6)] :=
  ⟨(throttle_once_per_interval (fun x : Nat => x + 1) 100 (by decide)
      [(1000, 1), (1050, 2), (1100, 3), (1199, 4), (1200, 5)]).1, by decide⟩

/-- C27 (evaluation at the failing input): for a user without avatar whose
first name starts with U+1F600 and whose last name is `lee`, `first_name[0]` is
the lone high surrogate D83D, the initials are that unit followed by `L`, and
`encodeURIComponent` throws `URIError`, so `getUserAvatarUrl(user, 64)` throws
instead of returning a placeholder.  On the other inputs evaluated here the
function returns what the claim says: `AL` for `ann lee`, the two code units of a
user name (both halves of U+1F600, encoded as four octets), `BO` for the nick
name `bo`, `%3F` when no name is present, the unencoded `?` for a `null` user,
and the service address for a user with an avatar path. -/
theorem emoji_first_name_throws :
    getUserAvatarUrl toUpperCaseAscii (utf16 "http://users") (some emojiFirstName) 64 = none ∧
    toUpperCaseAscii (([55357, 56832] ++ utf16 "ann").take 1 ++ (utf16 "lee").take 1) =
      [55357, 76] ∧
    encodeURIComponent [55357, 76] = none ∧
    getUserAvatarUrl toUpperCaseAscii (utf16 "http://users")
        (some { emojiFirstName with first_name := some (utf16 "ann") }) 64 =
      some (utf16 "https://placehold.co/64x64/161832/fff?text=AL") ∧
    getUserAvatarUrl toUpperCaseAscii (utf16 "http://users")
        (some (namedUser (some ([55357, 56832] ++ utf16 "zed")) none)) 64 =
      some (utf16 "https://placehold.co/64x64/161832/fff?text=%F0%9F%98%80") ∧
    getUserAvatarUrl toUpperCaseAscii (utf16 "http://users")
        (some (namedUser none (some (utf16 "bo")))) 64 =
      some (utf16 "https://placehold.co/64x64/161832/fff?text=BO") ∧
    getUserAvatarUrl toUpperCaseAscii (utf16 "http://users") (some (namedUser none none)) 64 =
      some (utf16 "https://placehold.co/64x64/161832/fff?text=%3F") ∧
    getUserAvatarUrl toUpperCaseAscii (utf16 "http://users") none 64 =
      some (utf16 "https://placehold.co/64x64/161832/fff?text=?") ∧
    getUserAvatarUrl toUpperCaseAscii (utf16 "http://users")
        (some { emojiFirstName with avatar_path := some (utf16 "/a.png") }) 64 =
      some (utf16 "http://users/a.png") ∧
    getUserAvatarUrl toUpperCaseAscii (utf16 "http://users")
        (some { emojiFirstName with avatar_path := some (utf16 "https://cdn/a.png") }) 64 =
      some (utf16 "https://cdn/a.png") := by
  decide

/-- The unread records of a list with a head. -/
theorem unreadOf_cons (n : Notification) (l : List Notification) :
    unreadOf (n :: l) = (if n.is_read then 0 else 1) + unreadOf l := by
  cases h : n.is_read <;> simp [unreadOf, h]
  omega

/-- The number of unread records is not negative. -/
theorem unreadOf_nonneg (l : List Notification) : 0 ≤ unreadOf l := by
  unfold unreadOf
  exact Int.ofNat_nonneg _

/-- Marking an unread record read lowers the number of unread records by one. -/
theorem unreadOf_setIsRead (l : List Notification) :
    ∀ k n, l[k]? = some n → n.is_read = false →
      unreadOf (setIsRead true k l) = unreadOf l - 1 := by
  induction l with
  | nil => intro k n h; simp at h
  | cons a rest ih =>
    intro k n h hr
    cases k with
    | zero =>
      simp at h
      subst h
      simp [setIsRead, unreadOf_cons, hr]
    | succ k1 =>
      simp at h
      simp only [setIsRead, unreadOf_cons, ih k1 n h hr]
      omega

/-- Removing a record lowers the number of unread records by one if it was unread. -/
theorem unreadOf_eraseIdx (l : List Notification) :
    ∀ k n, l[k]? = some n →
      unreadOf (l.eraseIdx k) = unreadOf l - (if n.is_read then 0 else 1) := by
  induction l with
  | nil => intro k n h; simp at h
  | cons a rest ih =>
    intro k n h
    cases k with
    | zero =>
      simp at h
      subst h
      simp only [List.eraseIdx_cons_zero, unreadOf_cons]
      omega
    | succ k1 =>
      simp at h
      simp only [List.eraseIdx_cons_succ, unreadOf_cons, ih k1 n h]
      omega

/-- After marking every record read none is unread. -/
theorem unreadOf_all_read (l : List Notification) :
    unreadOf (l.map (fun n => { n with is_read := true })) = 0 := by
  induction l with
  | nil => rfl
  | cons a rest ih => simp [unreadOf_cons, ih]

/-- On a read or missing record `markAsRead` changes neither list nor count. -/
theorem markAsRead_unchanged (i : Nat) (s : State)
    (h : ∀ k n, findNotification i s.notifications = some k → s.notifications[k]? = some n →
      n.is_read = true) :
    (markAsRead i s).1.notifications = s.notifications ∧
    (markAsRead i s).1.unreadCount = s.unreadCount := by
  cases hk : findNotification i s.notifications with
  | none => cases ht : tokenPresent s.token <;> simp [markAsRead, hk, ht]
  | some k =>
    cases hn : s.notifications[k]? with
    | none => cases ht : tokenPresent s.token <;> simp [markAsRead, hk, hn, ht]
    | some n =>
      have hr := h k n hk hn
      cases ht : tokenPresent s.token <;> simp [markAsRead, hk, hn, ht, hr]

/-- The value returned by `markAsRead`, and what it leaves alone without a token. -/
theorem markAsRead_result (i : Nat) (s : State) :
    (markAsRead i s).2 = tokenPresent s.token ∧
    (tokenPresent s.token = false → (markAsRead i s).1.requests = s.requests) := by
  have hs : ∀ s1 : State, s1.token = s.token → s1.requests = s.requests →
      (if (!tokenPresent s1.token) = true then (s1, false)
        else ({ s1 with requests := s1.requests ++ [.markRead i] }, true)).2 =
          tokenPresent s.token ∧
      (tokenPresent s.token = false →
        (if (!tokenPresent s1.token) = true then (s1, false)
          else ({ s1 with requests := s1.requests ++ [.markRead i] }, true)).1.requests =
            s.requests) := by
    intro s1 h1 h2
    rw [h1]
    cases ht : tokenPresent s.token <;> simp [h2]
  unfold markAsRead
  apply hs
  · repeat (first | rfl | split)
  · repeat (first | rfl | split)

/-- C28: if the unread count equals the number of unread records (so it is
not negative), it still does after a new notification frame, after the optimistic
part of `markAsRead`, after the optimistic part of `deleteNotification`, after
`markAllAsRead` and after `clearNotifications`. -/
theorem unread_count_consistent (s : State) (h : Consistent s) :
    0 ≤ s.unreadCount ∧
    (∀ permission n,
      Consistent (handleIncomingNotification permission
        { type := some "notification", notification := n } s)) ∧
    (∀ i, Consistent (markAsRead i s).1) ∧
    (∀ i, Consistent (deleteNotification i s).1) ∧
    Consistent (markAllAsRead s).1 ∧
    Consistent (clearNotifications s) := by
  unfold Consistent at h
  refine ⟨by rw [h]; exact unreadOf_nonneg _, ?_, ?_, ?_, ?_, ?_⟩
  · intro permission n
    unfold Consistent
    cases permission <;> cases hr : n.is_read <;>
      simp [handleIncomingNotification, handleNewNotification, showBrowserNotification,
        emit_eq, unreadOf_cons, hr, h] <;> omega
  · intro i
    unfold Consistent
    cases hk : findNotification i s.notifications with
    | none =>
      obtain ⟨h1, h2⟩ := markAsRead_unchanged i s (by intro k n hk1; rw [hk] at hk1; cases hk1)
      rw [h1, h2, h]
    | some k =>
      obtain ⟨⟨n, hn, -⟩, -⟩ := findNotification_first i s.notifications k hk
      cases hr : n.is_read
      · obtain ⟨h1, h2⟩ := markAsRead_state i k n s hk hn hr
        rw [h1, h2, unreadOf_setIsRead _ _ _ hn hr, h]
        have h0 := unreadOf_setIsRead _ _ _ hn hr
        have h3 := unreadOf_nonneg (setIsRead true k s.notifications)
        omega
      · obtain ⟨h1, h2⟩ := markAsRead_unchanged i s (by
          intro k1 n1 hk1 hn1
          rw [hk] at hk1
          cases hk1
          rw [hn] at hn1
          cases hn1
          exact hr)
        rw [h1, h2, h]
  · intro i
    unfold Consistent
    cases hk : findNotification i s.notifications with
    | none =>
      obtain ⟨h1, h2, -⟩ := deleteNotification_absent i s hk
      rw [h1, h2, h]
    | some k =>
      obtain ⟨⟨n, hn, -⟩, -⟩ := findNotification_first i s.notifications k hk
      obtain ⟨h1, h2, -⟩ := deleteNotification_state i k n s hk hn
      rw [h1, h2, unreadOf_eraseIdx _ _ _ hn, h]
      have h0 := unreadOf_eraseIdx _ _ _ hn
      have h3 := unreadOf_nonneg (s.notifications.eraseIdx k)
      cases hr : n.is_read
      · rw [hr] at h0
        simp only [Bool.false_eq_true, if_false] at h0 ⊢
        omega
      · simp
  · unfold Consistent
    cases ht : tokenPresent s.token <;>
      simp [markAllAsRead, ht, emit_eq, unreadOf_all_read]
  · unfold Consistent
    simp [clearNotifications, unreadOf]

/-- C28 (witness): one unread record with id 7 and unread count 1. -/
theorem unread_count_consistent_witness :
    Consistent { loggedIn with notifications := [note7], unreadCount := 1 } ∧
    Consistent (markAsRead 7 { loggedIn with notifications := [note7], unreadCount := 1 }).1 ∧
    Consistent
      (deleteNotification 7 { loggedIn with notifications := [note7], unreadCount := 1 }).1 :=
  have h : Consistent { loggedIn with notifications := [note7], unreadCount := 1 } := by
    unfold Consistent; decide
  ⟨h, (unread_count_consistent _ h).2.2.1 7, (unread_count_consistent _ h).2.2.2.1 7⟩

/-- C29 (counterexample): in `staleCountNoToken` no token is present, the first
record with id 7 is unread and the unread count is 0; `markAsRead(7)` and
`deleteNotification(7)` return false and apply their change to the list, but the
unread count stays 0 instead of being decremented. -/
theorem no_token_counterexample :
    tokenPresent staleCountNoToken.token = false ∧
    findNotification 7 staleCountNoToken.notifications = some 0 ∧
    staleCountNoToken.notifications = [note7] ∧
    note7.is_read = false ∧
    staleCountNoToken.unreadCount = 0 ∧
    (markAsRead 7 staleCountNoToken).2 = false ∧
    (markAsRead 7 staleCountNoToken).1.notifications = [{ note7 with is_read := true }] ∧
    (markAsRead 7 staleCountNoToken).1.unreadCount = 0 ∧
    (deleteNotification 7 staleCountNoToken).2 = false ∧
    (deleteNotification 7 staleCountNoToken).1.notifications = [] ∧
    (deleteNotification 7 staleCountNoToken).1.unreadCount = 0 := by
  decide

/-- C29 (amended): `markAsRead(i)` and `deleteNotification(i)` return true
exactly when a token is present; without a token they return false and start no
request, yet the optimistic change stays applied: an unread first record with id
`i` is left read, respectively removed, and the unread count is `max(0, c - 1)`,
one less than before whenever it was at least 1. -/
theorem no_token_not_atomic (i : Nat) (s : State) :
    (markAsRead i s).2 = tokenPresent s.token ∧
    (deleteNotification i s).2 = tokenPresent s.token ∧
    (tokenPresent s.token = false →
      (markAsRead i s).2 = false ∧ (deleteNotification i s).2 = false ∧
      (markAsRead i s).1.requests = s.requests ∧
      (deleteNotification i s).1.requests = s.requests ∧
      (∀ k n, findNotification i s.notifications = some k → s.notifications[k]? = some n →
        n.is_read = false →
        (markAsRead i s).1.notifications = setIsRead true k s.notifications ∧
        (markAsRead i s).1.notifications[k]? = some { n with is_read := true } ∧
        (markAsRead i s).1.unreadCount = max 0 (s.unreadCount - 1) ∧
        (deleteNotification i s).1.notifications = s.notifications.eraseIdx k ∧
        (deleteNotification i s).1.unreadCount = max 0 (s.unreadCount - 1) ∧
        (1 ≤ s.unreadCount →
          (markAsRead i s).1.unreadCount = s.unreadCount - 1 ∧
          (deleteNotification i s).1.unreadCount = s.unreadCount - 1))) := by
  obtain ⟨hm1, hm2⟩ := markAsRead_result i s
  obtain ⟨hd1, hd2⟩ := deleteNotification_result i s
  refine ⟨hm1, hd1, ?_⟩
  intro ht
  refine ⟨by rw [hm1, ht], by rw [hd1, ht], hm2 ht, (hd2 ht).1, ?_⟩
  intro k n hk hn hr
  obtain ⟨h1, h2⟩ := markAsRead_state i k n s hk hn hr
  obtain ⟨h3, h4, -⟩ := deleteNotification_state i k n s hk hn
  rw [hr] at h4
  simp only [Bool.false_eq_true, if_false] at h4
  refine ⟨h1, ?_, h2, h3, h4, ?_⟩
  · rw [h1]; exact setIsRead_getElem?_self _ _ _ _ hn
  · intro hc
    rw [h2, h4]
    omega

/-- After `removeItem(key)` the key is absent. -/
theorem lookup_removeItem_self (key : String) (storage : List (String × String)) :
    (removeItem key storage).lookup key = none := by
  induction storage with
  | nil => rfl
  | cons p rest ih =>
    obtain ⟨k, v⟩ := p
    by_cases h : k = key
    · subst h
      simpa [removeItem] using ih
    · have hb : (key == k) = false := by simpa using fun h1 : key = k => h h1.symm
      have ih1 : List.lookup key (List.filter (fun p => p.1 != key) rest) = none := ih
      simp [removeItem, h, List.lookup, hb, ih1]

/-- Removing another key keeps an absent key absent. -/
theorem lookup_removeItem_of_none (key key1 : String) (storage : List (String × String))
    (h : storage.lookup key = none) : (removeItem key1 storage).lookup key = none := by
  induction storage with
  | nil => rfl
  | cons p rest ih =>
    obtain ⟨k, v⟩ := p
    by_cases hk : key = k
    · subst hk
      simp [List.lookup] at h
    · have hb : (key == k) = false := by simpa using hk
      simp only [List.lookup, hb] at h
      have ih1 : List.lookup key (List.filter (fun p => p.1 != key1) rest) = none := ih h
      by_cases h1 : k = key1
      · subst h1
        simpa [removeItem] using ih1
      · simp [removeItem, h1, List.lookup, hb, ih1]

/-- After `clearUser()` both storage keys are absent. -/
theorem clearUser_storage (s : State) :
    (clearUser s).localStorage.lookup "user" = none ∧
    (clearUser s).localStorage.lookup "token" = none := by
  constructor
  · exact lookup_removeItem_of_none _ _ _ (lookup_removeItem_self _ _)
  · exact lookup_removeItem_self _ _

/-- The two formulations of a truthy string agree. -/
theorem tokenPresent_iff (t : Option String) :
    tokenPresent t = true ↔ truthyText t ≠ none := by
  cases t with
  | none => simp [tokenPresent, truthyText]
  | some x =>
    by_cases h : x = ""
    · simp [tokenPresent, truthyText, h]
    · simp [tokenPresent, truthyText, h]

/-- A truthy string field is the field itself. -/
theorem truthyText_eq (t : Option String) (x : String) (h : truthyText t = some x) :
    t = some x := by
  cases t with
  | none => simp [truthyText] at h
  | some y =>
    simp only [truthyText] at h
    split at h
    · cases h
    · cases h; rfl

/-- C30: after `setUser(userData, authToken, options)`, whether or not a
storage write threw, `isAuthenticated()` is true if and only if `userData` and
`authToken` are both truthy; then `getUser()` and `getToken()` return them;
otherwise both return `null`, both storage keys are removed and nothing was
thrown; and after `clearUser()`, `isAuthenticated()` is false. -/
theorem session_store_consistent (quota : String → Bool) (stringify : User → String)
    (userData : Option User) (authToken : Option String) (persist : Bool) (s : State) :
    (isAuthenticated (setUser quota stringify userData authToken persist s).1 = true ↔
      (userData ≠ none ∧ truthyText authToken ≠ none)) ∧
    ((userData ≠ none ∧ truthyText authToken ≠ none) →
      getUser (setUser quota stringify userData authToken persist s).1 = userData ∧
      getToken (setUser quota stringify userData authToken persist s).1 = authToken) ∧
    (¬ (userData ≠ none ∧ truthyText authToken ≠ none) →
      getUser (setUser quota stringify userData authToken persist s).1 = none ∧
      getToken (setUser quota stringify userData authToken persist s).1 = none ∧
      (setUser quota stringify userData authToken persist s).1.localStorage.lookup "user"
        = none ∧
      (setUser quota stringify userData authToken persist s).1.localStorage.lookup "token"
        = none ∧
      (setUser quota stringify userData authToken persist s).2 = false) ∧
    isAuthenticated (clearUser s) = false := by
  refine ⟨?_, ?_, ?_, rfl⟩
  · cases hu : userData with
    | none => simp [setUser, isAuthenticated, clearUser]
    | some u =>
      cases ht : truthyText authToken with
      | none => simp [setUser, isAuthenticated, clearUser, ht]
      | some t =>
        have hp : tokenPresent authToken = true := (tokenPresent_iff _).mpr (by rw [ht]; simp)
        cases persist <;> cases hq1 : quota "user" <;> cases hq2 : quota "token" <;>
          simp [setUser, isAuthenticated, ht, hp, hq1, hq2]
  · rintro ⟨hu, ht⟩
    obtain ⟨u, rfl⟩ := Option.ne_none_iff_exists'.mp hu
    obtain ⟨t, ht1⟩ := Option.ne_none_iff_exists'.mp ht
    cases persist <;> cases hq1 : quota "user" <;> cases hq2 : quota "token" <;>
      simp [setUser, getUser, getToken, ht1, hq1, hq2]
  · intro h
    have hclear : setUser quota stringify userData authToken persist s =
        (clearUser { s with user := userData, token := authToken }, false) := by
      cases hu : userData with
      | none => simp [setUser]
      | some u =>
        cases ht : truthyText authToken with
        | none => simp [setUser, ht]
        | some t => exact absurd ⟨by rw [hu]; simp, by rw [ht]; simp⟩ h
    rw [hclear]
    exact ⟨rfl, rfl, (clearUser_storage _).1, (clearUser_storage _).2, rfl⟩

end SocialNetwork
